import Mathlib

/-!
Verification development for the Vega MetaMask snap transaction pipeline
(repository vega-snap).  The definitions below are shallow embeddings of the
TypeScript sources: `errors.ts`, `keys.ts`, `transaction.ts`, `ui.ts`,
`transaction-title.ts`, `utils.ts` and the JSON-RPC entry point `index.ts`.
External libraries (the ed25519 key derivation, the protobuf codec, the
proof-of-work search, locale-dependent formatters) are modelled as explicit
function parameters or as executable codecs.  Machine integers are modelled
as `Nat`/`Int`/`Rat`; JavaScript values crossing the JSON-RPC boundary are
modelled by the `JsValue` type below, with `Option JsValue` distinguishing
an absent property (`undefined`) from a present `null`.
-/

namespace VegaSnap

/-- Byte strings are lists of naturals, each intended to be `< 256`. -/
abbrev Bytes := List Nat

/-- JavaScript/JSON values as they cross the snap boundary.  An object is an
ordered association list of fields; a missing field is `Option.none` at the
access site (`undefined`), while an explicit `null` is `vNull`.  `vBig`
models JavaScript `bigint`, kept distinct from `vNum` because the source
compares with strict equality (`!== BigInt(0)`). -/
inductive JsValue where
  | vNull : JsValue
  | vBool : Bool → JsValue
  | vNum : Int → JsValue
  | vBig : Int → JsValue
  | vStr : String → JsValue
  | vArr : List JsValue → JsValue
  | vObj : List (String × JsValue) → JsValue

/-- JavaScript truthiness of a value (used by `!tx.oneOff` style tests). -/
def JsValue.truthy : JsValue → Bool
  | .vNull => false
  | .vBool b => b
  | .vNum n => n != 0
  | .vBig n => n != 0
  | .vStr s => s != ""
  | .vArr _ => true
  | .vObj _ => true

/-- Property access `v.k`: `none` models `undefined` (also for access on a
non-object primitive, which suffices for the fields this pipeline reads). -/
def JsValue.get : JsValue → String → Option JsValue
  | .vObj fs, k => fs.lookup k
  | _, _ => none

/-- Optional-chaining access `v?.k` on a possibly absent value. -/
def JsValue.getOpt : Option JsValue → String → Option JsValue
  | some v, k => v.get k
  | none, _ => none

/-- Truthiness of a possibly absent value (`undefined` is falsy). -/
def truthyOpt : Option JsValue → Bool
  | some v => v.truthy
  | none => false

/-- The result of `Object.keys` on a transaction object. -/
def JsValue.objKeys : JsValue → List String
  | .vObj fs => fs.map Prod.fst
  | _ => []

/-- String coercion of a primitive, as in a template literal. -/
def jsShow : JsValue → String
  | .vNull => "null"
  | .vBool b => if b then "true" else "false"
  | .vNum n => toString n
  | .vBig n => toString n
  | .vStr s => s
  | .vArr _ => ""
  | .vObj _ => "[object Object]"

/-- Coercion of a possibly absent value, `undefined` rendering as JS does. -/
def jsShowOpt : Option JsValue → String
  | some v => jsShow v
  | none => "undefined"

/-! ## Errors (`errors.ts`, the class `JSONRPCError` and its factories) -/

/-- The `JSONRPCError` class: message, integer code and a detail payload
(its `data` is `any` in the source; every value actually constructed there
is `null` or a string, so we model it as `Option String`). -/
structure JSONRPCError where
  message : String
  code : Int
  data : Option String
deriving DecidableEq

def methodNotFound : JSONRPCError :=
  { message := "Method not found", code := -32601, data := none }

def invalidParameters (m : String) : JSONRPCError :=
  { message := "Invalid parameters", code := -1, data := some m }

def unknownPublicKey : JSONRPCError :=
  { message := "Unknown public key", code := -3,
    data := some "The public key is not known to the wallet" }

def transactionDenied : JSONRPCError :=
  { message := "Transaction denied", code := -4,
    data := some "The user denied the transaction" }

def transactionFailed (cause : String) : JSONRPCError :=
  { message := "Transaction failed", code := -5, data := some cause }

def noHealthyNode : JSONRPCError :=
  { message := "No healthy node", code := -6, data := some "No healthy node found" }

/-- The wire shape produced by `JSONRPCError.toJSON`. -/
structure ErrorEnvelope where
  code : Int
  message : String
  data : Option String
deriving DecidableEq

/-- The `toJSON` method of `JSONRPCError`. -/
def JSONRPCError.toJSON (e : JSONRPCError) : ErrorEnvelope :=
  { code := e.code, message := e.message, data := e.data }

/-! ## Hex rendering (`@vegaprotocol/crypto` `buf.cjs`, `toHex`/`fromHex`) -/

def hexChars : List Char := "0123456789abcdef".data

def byteToHex (b : Nat) : String :=
  String.mk [hexChars.getD (b / 16 % 16) (Char.ofNat 48), hexChars.getD (b % 16) (Char.ofNat 48)]

def toHex (bs : Bytes) : String :=
  String.join (bs.map byteToHex)

def hexVal (c : Char) : Option Nat :=
  hexChars.findIdx? (fun d => d == c)

def fromHexList : List Char → Bytes
  | c1 :: c2 :: rest =>
    (match hexVal c1, hexVal c2 with
     | some a, some b => [a * 16 + b]
     | _, _ => []) ++ fromHexList rest
  | _ => []

/-- Hex string to bytes (lenient on bad input, like the JS helper). -/
def fromHex (s : String) : Bytes := fromHexList s.data

def isHexChar (c : Char) : Bool := hexChars.contains c

/-- The strict 64-lowercase-hex-character public-key format check. -/
def isHex64 (s : String) : Bool := s.length == 64 && s.data.all isHexChar

/-! ## Byte codec

The snap serialises transactions with the generated protobuf codec of
`@vegaprotocol/protos` (`InputData.encode`, `Transaction.encode`), an
external dependency of this repository.  We model it as an executable,
canonical, self-delimiting byte encoding with a total decoder and prove the
decode/encode round trip: unsigned 64-bit integers are eight big-endian
bytes, byte strings and character strings are length-prefixed. -/

/-- Eight big-endian bytes of an unsigned 64-bit integer. -/
def natEnc8 (n : Nat) : Bytes :=
  [n / 72057594037927936 % 256, n / 281474976710656 % 256, n / 1099511627776 % 256,
   n / 4294967296 % 256, n / 16777216 % 256, n / 65536 % 256, n / 256 % 256, n % 256]

/-- Read back eight big-endian bytes, returning the value and the rest. -/
def natDec8 : Bytes → Option (Nat × Bytes)
  | a :: b :: c :: d :: e :: f :: g :: h :: rest =>
    let v := ((((((a * 256 + b) * 256 + c) * 256 + d) * 256 + e) * 256 + f) * 256 + g) * 256 + h
    some (v, rest)
  | _ => none

/-- Length-prefixed byte string. -/
def encLen (l : Bytes) : Bytes := natEnc8 l.length ++ l

/-- Read back a length-prefixed byte string. -/
def decLen (s : Bytes) : Option (Bytes × Bytes) :=
  match natDec8 s with
  | some (n, rest) => if n ≤ rest.length then some (rest.take n, rest.drop n) else none
  | none => none

/-- Length-prefixed character string (characters as their code points). -/
def encStr (s : String) : Bytes := encLen (s.data.map Char.toNat)

/-- Read back a length-prefixed character string. -/
def decStr (bs : Bytes) : Option (String × Bytes) :=
  match decLen bs with
  | some (l, rest) => some (String.mk (l.map Char.ofNat), rest)
  | none => none

/-! ## Base64 (`@vegaprotocol/crypto` `buf.cjs`, `toBase64`) -/

def b64Alphabet : List Char :=
  "ABCDEFGHIJKLMNOPQRSTUVWXYZabcdefghijklmnopqrstuvwxyz0123456789+/".data

def b64Char (n : Nat) : Char := b64Alphabet.getD n (Char.ofNat 65)

/-- The base64 padding character. -/
def padChar : Char := Char.ofNat 61

def b64Val (c : Char) : Option Nat :=
  b64Alphabet.findIdx? (fun d => d == c)

/-- Standard base64 encoding of a byte list, three bytes to four digits with
trailing padding. -/
def b64EncodeAux : Bytes → List Char
  | [] => []
  | [a] => [b64Char (a / 4), b64Char (a % 4 * 16), padChar, padChar]
  | [a, b] => [b64Char (a / 4), b64Char (a % 4 * 16 + b / 16), b64Char (b % 16 * 4), padChar]
  | a :: b :: c :: rest =>
    b64Char (a / 4) :: b64Char (a % 4 * 16 + b / 16) :: b64Char (b % 16 * 4 + c / 64) ::
      b64Char (c % 64) :: b64EncodeAux rest

def toBase64 (bs : Bytes) : String := String.mk (b64EncodeAux bs)

/-- Standard base64 decoding, the inverse of `b64EncodeAux`. -/
def b64DecodeAux : List Char → Option Bytes
  | [] => some []
  | c1 :: c2 :: c3 :: c4 :: rest =>
    (b64Val c1).bind fun v1 =>
    (b64Val c2).bind fun v2 =>
    if c3 = padChar ∧ c4 = padChar ∧ rest = [] then
      some [v1 * 4 + v2 / 16]
    else if c4 = padChar ∧ rest = [] then
      (b64Val c3).bind fun v3 => some [v1 * 4 + v2 / 16, v2 % 16 * 16 + v3 / 4]
    else
      (b64Val c3).bind fun v3 =>
      (b64Val c4).bind fun v4 =>
      (b64DecodeAux rest).bind fun tail =>
      some ((v1 * 4 + v2 / 16) :: (v2 % 16 * 16 + v3 / 4) :: (v3 % 4 * 64 + v4) :: tail)
  | _ => none

def fromBase64 (s : String) : Option Bytes := b64DecodeAux s.data

/-! ## Signed transaction structure (`transaction.ts`, `encodeTransaction`) -/

/-- The signature member of the transaction envelope. -/
structure Signature where
  value : String
  algo : String
  version : Nat
deriving DecidableEq

/-- A solved proof-of-work challenge: transaction id (hex) and nonce. -/
structure PoW where
  tid : String
  nonce : Nat
deriving DecidableEq

/-- The `from` member of the envelope (`from` is a Lean keyword, so the
field is `txFrom` here). -/
structure TxFrom where
  pubKey : String
deriving DecidableEq

/-- The structure handed to `Transaction.encode`. -/
structure TransactionData where
  inputData : Bytes
  signature : Signature
  txFrom : TxFrom
  version : Nat
  pow : PoW
deriving DecidableEq

/-- Model of the external `Transaction.encode`: the canonical bytes of the
signed envelope, fields in declaration order. -/
def txEncode (t : TransactionData) : Bytes :=
  encLen t.inputData ++ (encStr t.signature.value ++ (encStr t.signature.algo ++
    (natEnc8 t.signature.version ++ (encStr t.txFrom.pubKey ++
    (natEnc8 t.version ++ (encStr t.pow.tid ++ natEnc8 t.pow.nonce))))))

/-- Model of the external `Transaction.decode`: reads the fields back in
order and requires the buffer to be exactly consumed. -/
def txDecode (bs : Bytes) : Option TransactionData :=
  (decLen bs).bind fun p1 =>
  (decStr p1.2).bind fun p2 =>
  (decStr p2.2).bind fun p3 =>
  (natDec8 p3.2).bind fun p4 =>
  (decStr p4.2).bind fun p5 =>
  (natDec8 p5.2).bind fun p6 =>
  (decStr p6.2).bind fun p7 =>
  (natDec8 p7.2).bind fun p8 =>
  if p8.2 = [] then
    some { inputData := p1.1,
           signature := { value := p2.1, algo := p3.1, version := p4.1 },
           txFrom := { pubKey := p5.1 },
           version := p6.1,
           pow := { tid := p7.1, nonce := p8.1 } }
  else none

/-- The JSON mirror of the proof of work: the nonce is string-rendered. -/
structure PowJSON where
  tid : String
  nonce : String
deriving DecidableEq

/-- The JSON mirror of a signed transaction, as returned to the caller:
binary `inputData` is base64-rendered, the pow nonce string-rendered. -/
structure TxJSON where
  inputData : String
  signature : Signature
  txFrom : TxFrom
  version : Nat
  pow : PowJSON
deriving DecidableEq

/-- The pair built by `encodeTransaction`: raw bytes and JSON mirror. -/
structure EncodedTx where
  raw : Bytes
  json : TxJSON

/-! ## External capabilities and the per-request environment

The snap runs against a host (MetaMask) and external crypto libraries.
These are modelled as explicit data: `Ext` collects the pure external
functions (ed25519 seed-to-key derivation, the proof-of-work nonce search,
the protobuf `InputData.encode`, locale formatters, and the pretty-print
renderers for command kinds no claim touches), and `Env` fixes one
request's world: the host entropy per derivation path, each endpoint's
health-probe response, the randomness consumed, the user's dialog answer
and the node's submission response. -/

/-- Snap-UI elements produced by the review display. -/
inductive UiElm where
  | text : String → UiElm
  | copyable : String → UiElm
  | divider : UiElm
  | heading : String → UiElm

/-- A key pair as returned by `KeyPair.fromSeed` of
`@vegaprotocol/crypto`: public key (lowercase hex string rendering),
algorithm metadata and the signing capability. -/
structure KeyPair where
  publicKey : String
  algoName : String
  algoVersion : Nat
  signFn : Bytes → String → Bytes

/-- The response of `snap_getBip32Entropy`. -/
structure Entropy where
  index : Nat
  privateKey : String

/-- The latest-block response of a node (`blockchainHeight`). -/
structure LatestBlock where
  height : Nat
  chainId : String
  spamPowDifficulty : Nat
  hash : String

/-- The node's answer to a raw-transaction submission. -/
structure SubmitResult where
  txHash : String
  code : Int

/-- Pure external functions the pipeline calls. -/
structure Ext where
  fromSeed : Nat → Bytes → KeyPair
  powNonce : Nat → String → String → Nat
  inputDataEnc : Nat → Nat → JsValue → Bytes
  fmtAssetAmount : Option JsValue → Option JsValue → JsValue → String
  fmtTimestamp : Int → String
  renderOther : String → JsValue → Except JSONRPCError (List UiElm)

/-- One request's world: every external response it can observe. -/
structure Env where
  entropyAt : List String → Entropy
  nodeHealth : String → Option LatestBlock
  enrichment : JsValue
  approval : JsValue
  tidBytes : Bytes
  nonceBytes : Bytes
  submitRes : SubmitResult
  now : String

/-- Ghost trace of the observable effects of one request, in order. -/
inductive Event where
  | entropyRequest : List String → Event
  | probe : String → Event
  | fetchEnrichment : Event
  | fetchContext : Event
  | powSolved : Event
  | review : JsValue → Event
  | showDialog : Event
  | keyValidated : Bool → Event
  | encodeInput : Nat → Nat → JsValue → Event
  | submit : String → String → Event

/-- A failure escaping a handler: either an expected `JSONRPCError` (which
the boundary envelopes) or a plain `Error` (which propagates un-enveloped,
e.g. the `nanoassert` failure in `deriveKeyPair`). -/
inductive Failure where
  | rpc : JSONRPCError → Failure
  | plain : String → Failure

/-! ## Key derivation (`keys.ts`) -/

/-- The apostrophe marking a hardened BIP32 path component. -/
def tick : Char := Char.ofNat 39

/-- JS template <code>index + tick</code> for a hardened path component. -/
def hardened (s : String) : String := s.push tick

/-- String rendering of the numeric index in the path (JavaScript would
print a decimal like 0.5; only the function of the index matters here). -/
def ratStr (q : ℚ) : String :=
  toString q.num ++ (if q.den = 1 then "" else "/" ++ toString q.den)

/-- The fixed Vega derivation path with the index as final component:
`["m", "1789h", "0h", indexh]` where `h` stands for the hardened tick. -/
def derivationPath (index : ℚ) : List String :=
  ["m", hardened "1789", hardened "0", hardened (ratStr index)]

/-- The `0x` prefix strip `entropy.privateKey.slice(2)`. -/
def dropHexPrefixTwo (s : String) : String := s.drop 2

/-- Embedding of `deriveKeyPair(index)` from `keys.ts`: assert
`index >= 0 && index < 2 ** 31` (2147483648), then request BIP32 entropy at
the fixed path and derive the key pair from the returned seed.  The index is
a `Rat` because a JavaScript number need not be an integer.  The returned
trace records the entropy request; a failed assert throws a plain error
before any entropy request. -/
def deriveKeyPair (ext : Ext) (env : Env) (index : ℚ) :
    Except String KeyPair × List Event :=
  if 0 ≤ index ∧ index < 2147483648 then
    let path := derivationPath index
    let entropy := env.entropyAt path
    (Except.ok (ext.fromSeed entropy.index (fromHex (dropHexPrefixTwo entropy.privateKey))),
     [Event.entropyRequest path])
  else
    (Except.error "Key index out of bounds", [])

/-! ## Proof of work and input data (`transaction.ts` helpers) -/

/-- Model of `solve` from `@vegaprotocol/crypto` `pow.cjs`: the nonce found
by the external brute-force search for this difficulty, seed and tid. -/
def solve (ext : Ext) (difficulty : Nat) (blockHash : String) (tid : String) : PoW :=
  { tid := tid, nonce := ext.powNonce difficulty blockHash tid }

/-- Big-endian value of a byte list (`DataView.getBigUint64(0, false)`). -/
def bytesBE (bs : Bytes) : Nat := bs.foldl (fun acc b => acc * 256 + b) 0

/-- Embedding of `randomTid`: hex rendering of the 32 random bytes. -/
def randomTid (env : Env) : String := toHex env.tidBytes

/-- Embedding of `randomNonce`: the big-endian 64-bit value of the 8
random bytes. -/
def randomNonce (env : Env) : Nat := bytesBE env.nonceBytes

/-! ## Transaction encoding and sending (`transaction.ts`) -/

/-- The result object of `send`. -/
structure SendResult where
  sentAt : String
  transactionHash : String
  transaction : TxJSON
deriving DecidableEq

/-- Embedding of `encodeTransaction(inputData, keyPair, pow, chainId)`:
sign the input data (binding the chain id), assemble the envelope with
protocol version 3, encode it to raw bytes, and build the JSON mirror with
base64 input data and a string-rendered pow nonce. -/
def encodeTransaction (inputData : Bytes) (keyPair : KeyPair) (pow : PoW)
    (chainId : String) : EncodedTx :=
  let signature : Signature :=
    { value := toHex (keyPair.signFn inputData chainId),
      algo := keyPair.algoName,
      version := keyPair.algoVersion }
  let txFrom : TxFrom := { pubKey := keyPair.publicKey }
  let version := 3
  let raw := txEncode
    { inputData := inputData, signature := signature, txFrom := txFrom,
      version := version, pow := pow }
  let json : TxJSON :=
    { inputData := toBase64 inputData, signature := signature, txFrom := txFrom,
      version := version,
      pow := { tid := pow.tid, nonce := toString pow.nonce } }
  { raw := raw, json := json }

/-- A resolved node handle: the chosen endpoint and its probed block. -/
structure NodeHandle where
  url : String
  block : LatestBlock

/-- Modelled from the spec: `NodeRPC.submitRawTransaction` (`node-rpc.ts`
is not under `src/`, only its callers are).  Posts the base64 raw
transaction with the sending mode; a non-zero result code is surfaced as
the distinguishable "transaction failed" condition. -/
def submitRaw (env : Env) (raw64 : String) (mode : String) :
    Except Failure SubmitResult × List Event :=
  if env.submitRes.code = 0 then
    (Except.ok env.submitRes, [Event.submit raw64 mode])
  else
    (Except.error (Failure.rpc (transactionFailed (toString env.submitRes.code))),
     [Event.submit raw64 mode])

/-- Embedding of `send(node, transaction, sendingMode, publicKey)` from
`transaction.ts`: fetch the latest block, solve proof of work and encode
the input data (issued in parallel in the source; linearised here in the
`Promise.all` listing order), derive the key pair for account index 0,
compare its public key with the caller-declared one — a mismatch throws
`invalidParameters` with the source's literal detail string — then encode,
sign and submit, returning the sent-at timestamp, the node's transaction
hash and the JSON mirror. -/
def send (ext : Ext) (env : Env) (node : NodeHandle) (transaction : JsValue)
    (sendingMode : String) (publicKey : String) :
    Except Failure SendResult × List Event :=
  let latestBlock := node.block
  let chainId := latestBlock.chainId
  let tid := randomTid env
  let pow := solve ext latestBlock.spamPowDifficulty latestBlock.hash tid
  let nonce := randomNonce env
  let inputData := ext.inputDataEnc latestBlock.height nonce transaction
  let evs1 := [Event.fetchContext, Event.powSolved,
               Event.encodeInput latestBlock.height nonce transaction]
  match deriveKeyPair ext env 0 with
  | (Except.error m, evs2) => (Except.error (Failure.plain m), evs1 ++ evs2)
  | (Except.ok keyPair, evs2) =>
    let evs3 := evs1 ++ evs2 ++ [Event.keyValidated (keyPair.publicKey == publicKey)]
    if keyPair.publicKey = publicKey then
      let tx := encodeTransaction inputData keyPair pow chainId
      let sentAt := env.now
      match submitRaw env (toBase64 tx.raw) sendingMode with
      | (Except.error f, evs4) => (Except.error f, evs3 ++ evs4)
      | (Except.ok res, evs4) =>
        (Except.ok { sentAt := sentAt, transactionHash := res.txHash, transaction := tx.json },
         evs3 ++ evs4)
    else
      (Except.error (Failure.rpc (invalidParameters "Uknown public key")), evs3)

/-! ## Review display (`ui.ts`, `transaction-title.ts`, `utils.ts`)

Functions that can `throw invalidParameters(...)` return
`Except JSONRPCError`.  Locale-dependent string formatting
(`toLocaleString`, `Date`) is routed through the abstract formatters in
`Ext`; the wording of the rendered text is a declared non-goal, but the
control flow — which checks run, which inputs throw — follows the source. -/

/-- Embedding of `minimiseId` from `utils.ts`. -/
def minimiseId (id : String) : String :=
  if id.length > 12 then id.take 6 ++ "…" ++ id.drop (id.length - 6) else id

/-- Embedding of `getAccountType` from `utils.ts`: a strict `switch` that
only knows the global-reward and general account types and throws
`invalidParameters("Invalid account type")` on everything else. -/
def getAccountType (t : JsValue) : Except JSONRPCError String :=
  match t with
  | .vStr "ACCOUNT_TYPE_GLOBAL_REWARD" => Except.ok "Global Reward"
  | .vStr "ACCOUNT_TYPE_GENERAL" => Except.ok "General"
  | _ => Except.error (invalidParameters "Invalid account type")

/-- Embedding of `transactionTitle(tx)`: requires exactly one top-level
key and maps the known command kinds to their titles; an unknown single
key throws `invalidParameters("Unknown transaction type")`. -/
def transactionTitle (tx : JsValue) : Except JSONRPCError String :=
  let keys := tx.objKeys
  if keys.length ≠ 1 then Except.error (invalidParameters "Invalid transaction")
  else
    match keys.headD "" with
    | "orderSubmission" => Except.ok "Order submission"
    | "orderCancellation" => Except.ok "Order cancellation"
    | "orderAmendment" => Except.ok "Order amendment"
    | "withdrawSubmission" => Except.ok "Withdraw submission"
    | "proposalSubmission" => Except.ok "Proposal submission"
    | "voteSubmission" => Except.ok "Vote submission"
    | "liquidityProvisionSubmission" => Except.ok "Liquidity provision"
    | "delegateSubmission" => Except.ok "Delegate submission"
    | "undelegateSubmission" => Except.ok "Undelegate submission"
    | "liquidityProvisionCancellation" => Except.ok "Liquidity provision cancellation"
    | "liquidityProvisionAmendment" => Except.ok "Liquidity provision amendment"
    | "transfer" => Except.ok "Transfer"
    | "cancelTransfer" => Except.ok "Cancel transfer"
    | "announceNode" => Except.ok "Announce node"
    | "batchMarketInstructions" => Except.ok "Batch market instructions"
    | "stopOrdersSubmission" => Except.ok "Stop orders submission"
    | "stopOrdersCancellation" => Except.ok "Stop orders cancellation"
    | "nodeVote" => Except.ok "Node vote"
    | "nodeSignature" => Except.ok "Node signature"
    | "chainEvent" => Except.ok "Chain event"
    | "keyRotateSubmission" => Except.ok "Key rotation submission"
    | "stateVariableProposal" => Except.ok "State variable proposal"
    | "validatorHeartbeat" => Except.ok "Validator heartbeat"
    | "ethereumKeyRotateSubmission" => Except.ok "Ethereum key rotation submission"
    | "protocolUpgradeProposal" => Except.ok "Protocol upgrade proposal"
    | "issueSignatures" => Except.ok "Issue signatures"
    | "oracleDataSubmission" => Except.ok "Oracle data submission"
    | _ => Except.error (invalidParameters "Unknown transaction type")

/-- The command kinds `transactionTitle` knows (its `switch` cases). -/
def titleKeys : List String :=
  ["orderSubmission", "orderCancellation", "orderAmendment", "withdrawSubmission",
   "proposalSubmission", "voteSubmission", "liquidityProvisionSubmission",
   "delegateSubmission", "undelegateSubmission", "liquidityProvisionCancellation",
   "liquidityProvisionAmendment", "transfer", "cancelTransfer", "announceNode",
   "batchMarketInstructions", "stopOrdersSubmission", "stopOrdersCancellation",
   "nodeVote", "nodeSignature", "chainEvent", "keyRotateSubmission",
   "stateVariableProposal", "validatorHeartbeat", "ethereumKeyRotateSubmission",
   "protocolUpgradeProposal", "issueSignatures", "oracleDataSubmission"]

mutual

/-- Embedding of the generic recursive `prettyPrint(obj)` fallback. -/
def prettyPrint : JsValue → List UiElm
  | .vNull => [UiElm.text "**Empty transaction provided**"]
  | .vObj fs => prettyPrintFields fs
  | .vArr xs => prettyPrintElems 0 xs
  | _ => []

/-- One pass over `Object.entries(obj)` in `prettyPrint`. -/
def prettyPrintFields : List (String × JsValue) → List UiElm
  | [] => []
  | (k, v) :: rest =>
    (match v with
     | .vNull => [UiElm.text ("**" ++ k ++ "**: empty value")]
     | .vObj fs => UiElm.text ("**" ++ k ++ "**: ") :: prettyPrintFields fs
     | .vArr xs => UiElm.text ("**" ++ k ++ "**: ") :: prettyPrintElems 0 xs
     | prim => [UiElm.text ("**" ++ k ++ "**: " ++ jsShow prim)]) ++ prettyPrintFields rest

/-- Array entries enumerate with their index as the key. -/
def prettyPrintElems : Nat → List JsValue → List UiElm
  | _, [] => []
  | i, v :: rest =>
    (match v with
     | .vNull => [UiElm.text ("**" ++ toString i ++ "**: empty value")]
     | .vObj fs => UiElm.text ("**" ++ toString i ++ "**: ") :: prettyPrintFields fs
     | .vArr xs => UiElm.text ("**" ++ toString i ++ "**: ") :: prettyPrintElems 0 xs
     | prim => [UiElm.text ("**" ++ toString i ++ "**: " ++ jsShow prim)]) ++
    prettyPrintElems (i + 1) rest

end

/-- Quotation for `JSON.stringify` (escaping elided: no rendered string is
inspected by any theorem). -/
def quoteStr (s : String) : String := "\"" ++ s ++ "\""

mutual

/-- Embedding of `JSON.stringify(transaction, bigint-to-string replacer)`
used for the copyable raw transaction in the review dialog. -/
def stringify : JsValue → String
  | .vNull => "null"
  | .vBool b => if b then "true" else "false"
  | .vNum n => toString n
  | .vBig n => quoteStr (toString n)
  | .vStr s => quoteStr s
  | .vArr xs => "[" ++ stringifyElems xs ++ "]"
  | .vObj fs => "\x7b" ++ stringifyFields fs ++ "\x7d"

/-- Comma-joined array elements. -/
def stringifyElems : List JsValue → String
  | [] => ""
  | [x] => stringify x
  | x :: rest => stringify x ++ "," ++ stringifyElems rest

/-- Comma-joined object fields. -/
def stringifyFields : List (String × JsValue) → String
  | [] => ""
  | [(k, v)] => quoteStr k ++ ":" ++ stringify v
  | (k, v) :: rest => quoteStr k ++ ":" ++ stringify v ++ "," ++ stringifyFields rest

end

/-- The display gate on `tx.toAccountType` in `prettyPrintTransferFunds`:
shown iff not `undefined`, not `null`, not `'ACCOUNT_TYPE_GENERAL'` and not
the empty string. -/
def toAccountTypeDisplayed : Option JsValue → Bool
  | none => false
  | some .vNull => false
  | some (.vStr "ACCOUNT_TYPE_GENERAL") => false
  | some (.vStr "") => false
  | some _ => true

/-- The display gate on `tx.reference`: not `undefined`, `null` or `''`. -/
def referenceDisplayed : Option JsValue → Bool
  | none => false
  | some .vNull => false
  | some (.vStr "") => false
  | some _ => true

/-- The display gate on a `deliverOn`: not `undefined`, `null` or the
bigint zero (`!== BigInt(0)` is a strict, type-sensitive comparison). -/
def deliverOnDisplayed : Option JsValue → Bool
  | none => false
  | some .vNull => false
  | some (.vBig 0) => false
  | some _ => true

/-- JavaScript `Number(...)` coercion, only fed to the abstract timestamp
formatter. -/
def jsNumber : JsValue → Int
  | .vNum n => n
  | .vBig n => n
  | _ => 0

/-- Embedding of `prettyPrintTransferFunds` from `ui.ts`: only one-off
transfers are structured (everything else falls back to the generic
`prettyPrint`); the amount, asset and recipient are rendered, then the
to-account type (through `getAccountType`, which can throw), the reference
and the deliver-on timestamp. -/
def prettyPrintTransferFunds (ext : Ext) (tx : JsValue) (enrichmentData : JsValue) :
    Except JSONRPCError (List UiElm) :=
  if ¬ truthyOpt (tx.get "oneOff") ∧ ¬ truthyOpt (JsValue.getOpt (tx.get "kind") "oneOff") then
    Except.ok (prettyPrint tx)
  else do
    let amount := ext.fmtAssetAmount (tx.get "amount") (tx.get "asset") enrichmentData
    let elms0 := [UiElm.text ("**Amount**: " ++ amount),
                  UiElm.text "**Asset ID**:",
                  UiElm.copyable (jsShowOpt (tx.get "asset")),
                  UiElm.text "**To**:",
                  UiElm.copyable (jsShowOpt (tx.get "to"))]
    let elms1 ←
      if toAccountTypeDisplayed (tx.get "toAccountType") then do
        let a ← getAccountType ((tx.get "toAccountType").getD JsValue.vNull)
        pure (elms0 ++ [UiElm.text ("**To Account Type**: " ++ a)])
      else pure elms0
    let elms2 :=
      if referenceDisplayed (tx.get "reference") then
        elms1 ++ [UiElm.text ("**Reference**: " ++ jsShowOpt (tx.get "reference"))]
      else elms1
    let kindDeliver := JsValue.getOpt (JsValue.getOpt (tx.get "kind") "oneOff") "deliverOn"
    let topDeliver := JsValue.getOpt (tx.get "oneOff") "deliverOn"
    let elms3 :=
      if deliverOnDisplayed kindDeliver then
        elms2 ++ [UiElm.text ("**Deliver On**: " ++
          ext.fmtTimestamp (jsNumber (kindDeliver.getD JsValue.vNull)))]
      else if deliverOnDisplayed topDeliver then
        elms2 ++ [UiElm.text ("**Deliver On**: " ++
          ext.fmtTimestamp (jsNumber (topDeliver.getD JsValue.vNull)))]
      else elms2
    pure elms3

/-- The keys of `TRANSACTION_MAP` in `ui.ts`. -/
def transactionMapKeys : List String :=
  ["batchMarketInstructions", "orderSubmission", "orderCancellation", "orderAmendment",
   "stopOrdersSubmission", "stopOrdersCancellation", "withdrawSubmission", "transfer",
   "updateMarginMode", "createReferralSet", "updateReferralSet", "applyReferralCode",
   "joinTeam", "updatePartyProfile"]

/-- Embedding of `prettyPrintTx` from `ui.ts`: require exactly one
top-level key, then dispatch through `TRANSACTION_MAP`; the transfer
renderer is embedded above, the renderers of the other mapped kinds (which
no claim touches) are the abstract `Ext.renderOther`, and unmapped kinds
fall back to the generic `prettyPrint`. -/
def prettyPrintTx (ext : Ext) (tx : JsValue) (enrichmentData : JsValue) :
    Except JSONRPCError (List UiElm) :=
  let keys := tx.objKeys
  if keys.length ≠ 1 then Except.error (invalidParameters "Invalid transaction")
  else
    let k := keys.headD ""
    let txContent := (tx.get k).getD JsValue.vNull
    if k = "transfer" then prettyPrintTransferFunds ext txContent enrichmentData
    else if transactionMapKeys.contains k then ext.renderOther k txContent
    else Except.ok (prettyPrint txContent)

/-- Embedding of the content building of `reviewTransaction` from `ui.ts`,
in source evaluation order: the heading via `transactionTitle` (which can
throw), the origin, key and entrypoint lines, the pretty-printed body via
`prettyPrintTx` (which can throw) and the copyable stringified raw
transaction.  The actual `snap_dialog` call is the orchestrator's. -/
def reviewContent (ext : Ext) (origin : String) (transaction : JsValue)
    (entrypointOrigin : String) (pairIndex : Nat) (pairPublicKey : String)
    (enrichmentData : JsValue) : Except JSONRPCError (List UiElm) := do
  let title ← transactionTitle transaction
  let body ← prettyPrintTx ext transaction enrichmentData
  pure ([UiElm.heading title,
         UiElm.text ("Request from: **" ++ origin ++ "**"),
         UiElm.text ("Selected key: Snap Key " ++ toString pairIndex ++ " (" ++
           minimiseId pairPublicKey ++ ")"),
         UiElm.text ("Selected network entrypoint: " ++ entrypointOrigin),
         UiElm.divider] ++ body ++
        [UiElm.divider, UiElm.text "Raw transaction:", UiElm.copyable (stringify transaction)])

/-! ## Node resolution and the JSON-RPC entry point

`node-rpc.ts` and the final revision of `index.ts` are not under `src/`
(only their callers, tests and the error factories are), so the functions
below marked "Modelled from the spec" follow the specification's contract
for them: probing candidates for a healthy node, validating the request
parameters, gating submission on strict `true` from the review dialog with
the `transactionDenied` error, and returning every expected failure as the
`\x7berror: toJSON()\x7d` envelope instead of throwing. -/

/-- Modelled from the spec: `findHealthyNode(urls)` of `node-rpc.ts`.
Probes the candidates (sequentially here — the spec allows any strategy)
and returns a handle to a responding candidate, or the single
"no healthy node" condition when none responds.  Each probe is recorded in
the trace. -/
def findHealthyNode (env : Env) : List String → Except Failure NodeHandle × List Event
  | [] => (Except.error (Failure.rpc noHealthyNode), [])
  | u :: rest =>
    match env.nodeHealth u with
    | some b => (Except.ok { url := u, block := b }, [Event.probe u])
    | none =>
      let r := findHealthyNode env rest
      (r.1, Event.probe u :: r.2)

/-- The parameters object of a JSON-RPC request (fields may be absent). -/
structure RequestParams where
  sendingMode : Option JsValue
  publicKey : Option JsValue
  transaction : Option JsValue
  networkEndpoints : Option (List String)

/-- The sending-mode validation `TYPE_SYNC`/`TYPE_ASYNC`. -/
def validSendingMode : Option JsValue → Bool
  | some (.vStr "TYPE_SYNC") => true
  | some (.vStr "TYPE_ASYNC") => true
  | _ => false

/-- The sending mode as the string handed to `send`. -/
def sendingModeStr : Option JsValue → String
  | some (.vStr m) => m
  | _ => ""

/-- Strict `=== true` (the review result is treated as a black box and
anything but the boolean `true` is a denial). -/
def isTrueVal : JsValue → Bool
  | .vBool b => b
  | _ => false

/-- The declared public key when it is a string (anything else fails the
format validation). -/
def pubKeyStr : Option JsValue → Option String
  | some (.vStr s) => some s
  | _ => none

/-- What a JSON-RPC call returns to the caller. -/
inductive RpcOutcome where
  | sent : SendResult → RpcOutcome
  | keysList : List (String × String) → RpcOutcome
  | chainID : String → RpcOutcome
  | nullResult : RpcOutcome
  | failure : ErrorEnvelope → RpcOutcome
  | crashed : String → RpcOutcome

/-- The boundary: an expected `JSONRPCError` is returned as the
`toJSON()` envelope, an unexpected plain error propagates un-enveloped. -/
def wrapOutcome : Except Failure SendResult → RpcOutcome
  | Except.ok r => RpcOutcome.sent r
  | Except.error (Failure.rpc e) => RpcOutcome.failure e.toJSON
  | Except.error (Failure.plain m) => RpcOutcome.crashed m

/-- Modelled from the spec: the `client.send_transaction` handler of the
final `index.ts` (missing from `src/`; the middle revision in `src/` and
the tests fix everything modelled here except the literal validation
strings, which follow the tests).  Order: validate the endpoint list, the
sending mode and the public-key format; resolve the display key pair for
account index 0; resolve a healthy node; fetch the enrichment data; build
the review content (`reviewTransaction`, which can throw); show the
dialog; treat any answer but strict `true` as denial via
`transactionDenied`; only then call `send` from `transaction.ts`. -/
def sendTransactionFlow (ext : Ext) (env : Env) (origin : String) (p : RequestParams) :
    Except Failure SendResult × List Event :=
  match p.networkEndpoints with
  | none => (Except.error (Failure.rpc (invalidParameters "Invalid network endpoints")), [])
  | some urls =>
    if urls.isEmpty then
      (Except.error (Failure.rpc (invalidParameters "Invalid network endpoints")), [])
    else if ¬ validSendingMode p.sendingMode then
      (Except.error (Failure.rpc (invalidParameters "Invalid sending mode")), [])
    else
      match pubKeyStr p.publicKey with
      | none => (Except.error (Failure.rpc (invalidParameters "Invalid public key")), [])
      | some pk =>
        if ¬ isHex64 pk then
          (Except.error (Failure.rpc (invalidParameters "Invalid public key")), [])
        else
          let transaction := p.transaction.getD JsValue.vNull
          match deriveKeyPair ext env 0 with
          | (Except.error m, evs0) => (Except.error (Failure.plain m), evs0)
          | (Except.ok pair, evs0) =>
            match findHealthyNode env urls with
            | (Except.error f, evs1) => (Except.error f, evs0 ++ evs1)
            | (Except.ok node, evs1) =>
              let evs2 := evs0 ++ evs1 ++ [Event.fetchEnrichment]
              match reviewContent ext origin transaction node.url 0 pair.publicKey
                      env.enrichment with
              | Except.error e =>
                (Except.error (Failure.rpc e), evs2 ++ [Event.review transaction])
              | Except.ok _content =>
                let evs3 := evs2 ++ [Event.review transaction, Event.showDialog]
                if ¬ isTrueVal env.approval then
                  (Except.error (Failure.rpc transactionDenied), evs3)
                else
                  let r := send ext env node transaction (sendingModeStr p.sendingMode) pk
                  (r.1, evs3 ++ r.2)

/-- Modelled from the spec: the JSON-RPC dispatch of `onRpcRequest` with
the enveloping boundary.  `client.list_keys` derives the account-0 key
pair; `client.get_chain_id` validates the endpoint list and reports the
healthy node's chain id; the wallet connect/disconnect methods are no-ops
returning null; an unrecognised method is the "method not found"
condition. -/
def onRpcRequest (ext : Ext) (env : Env) (origin : String) (method : String)
    (p : RequestParams) : RpcOutcome × List Event :=
  match method with
  | "client.list_keys" =>
    (match deriveKeyPair ext env 0 with
     | (Except.ok pair, evs) => (RpcOutcome.keysList [("Snap Key 1", pair.publicKey)], evs)
     | (Except.error m, evs) => (RpcOutcome.crashed m, evs))
  | "client.get_chain_id" =>
    (match p.networkEndpoints with
     | none => (RpcOutcome.failure (invalidParameters "Invalid network endpoints").toJSON, [])
     | some urls =>
       if urls.isEmpty then
         (RpcOutcome.failure (invalidParameters "Invalid network endpoints").toJSON, [])
       else
         match findHealthyNode env urls with
         | (Except.ok node, evs) => (RpcOutcome.chainID node.block.chainId,
                                     evs ++ [Event.fetchContext])
         | (Except.error (Failure.rpc e), evs) => (RpcOutcome.failure e.toJSON, evs)
         | (Except.error (Failure.plain m), evs) => (RpcOutcome.crashed m, evs))
  | "client.send_transaction" =>
    let r := sendTransactionFlow ext env origin p
    (wrapOutcome r.1, r.2)
  | "client.connect_wallet" => (RpcOutcome.nullResult, [])
  | "client.disconnect_wallet" => (RpcOutcome.nullResult, [])
  | _ => (RpcOutcome.failure methodNotFound.toJSON, [])

/-! ## Trace observations -/

/-- Is this event a raw-transaction submission? -/
def isSubmitEv : Event → Bool
  | .submit _ _ => true
  | _ => false

/-- Does the trace submit a raw transaction at any point? -/
def hasSubmit (tr : List Event) : Bool := tr.any isSubmitEv

/-- Is this event a network call (probe, enrichment or context fetch, or
submission)?  Entropy requests and the dialog are host calls, not network
calls. -/
def isNetworkEv : Event → Bool
  | .probe _ => true
  | .fetchEnrichment => true
  | .fetchContext => true
  | .submit _ _ => true
  | _ => false

/-- Does the trace make any network call? -/
def hasNetwork (tr : List Event) : Bool := tr.any isNetworkEv

/-- Is this event the confirmation dialog? -/
def isDialogEv : Event → Bool
  | .showDialog => true
  | _ => false

/-- Was the confirmation dialog shown? -/
def hasDialog (tr : List Event) : Bool := tr.any isDialogEv

/-- Is this event the proof-of-work completion? -/
def isPowEv : Event → Bool
  | .powSolved => true
  | _ => false

/-- Is this event the chain-context fetch inside `send`? -/
def isContextEv : Event → Bool
  | .fetchContext => true
  | _ => false

/-- Is this event the caller-key validation inside `send`? -/
def isKeyValidatedEv : Event → Bool
  | .keyValidated _ => true
  | _ => false

/-- Is this event a host entropy request? -/
def isEntropyEv : Event → Bool
  | .entropyRequest _ => true
  | _ => false

/-- The prefix of the trace strictly before the first event satisfying
`p` (the whole trace when no event does). -/
def beforeFirst (p : Event → Bool) (tr : List Event) : List Event :=
  tr.takeWhile (fun e => ! p e)

/-- The commands handed to `InputData.encode` during a trace, in order. -/
def encodedCommands (tr : List Event) : List JsValue :=
  tr.filterMap (fun e => match e with | Event.encodeInput _ _ c => some c | _ => none)

/-- The commands handed to the review display during a trace, in order. -/
def reviewedCommands (tr : List Event) : List JsValue :=
  tr.filterMap (fun e => match e with | Event.review c => some c | _ => none)

/-- Did the call succeed with a sent transaction? -/
def isSent : RpcOutcome → Bool
  | .sent _ => true
  | _ => false

/-- The error envelope of a failed call, if it failed expectedly. -/
def outcomeFailure : RpcOutcome → Option ErrorEnvelope
  | .failure e => some e
  | _ => none

/-! ## Concrete instantiation data

Closed counterexamples and witnesses need a concrete external world.
Nothing below is part of the embedding of the source; it is sample data:
a deterministic key pair, an always-healthy single node, small fixed
"random" bytes, and small well-formed or deliberately malformed commands. -/

/-- A valid-format public key: 64 hex characters. -/
def pkA : String := String.mk (List.replicate 64 'a')

/-- A different valid-format public key. -/
def pkB : String := String.mk (List.replicate 64 'b')

/-- A sample key pair whose rendered public key is `pkA`. -/
def kpA : KeyPair :=
  { publicKey := pkA, algoName := "vega/ed25519", algoVersion := 1,
    signFn := fun _ _ => [7] }

/-- Sample external functions. -/
def ext0 : Ext :=
  { fromSeed := fun _ _ => kpA,
    powNonce := fun _ _ _ => 2,
    inputDataEnc := fun _ _ _ => [1, 2],
    fmtAssetAmount := fun _ _ _ => "1",
    fmtTimestamp := fun _ => "t",
    renderOther := fun _ _ => Except.ok [] }

/-- A sample latest block. -/
def block0 : LatestBlock :=
  { height := 1, chainId := "testnet", spamPowDifficulty := 1, hash := "ff" }

/-- A sample environment: healthy node everywhere, approving user. -/
def env0 : Env :=
  { entropyAt := fun _ => { index := 0, privateKey := "0x0b" },
    nodeHealth := fun _ => some block0,
    enrichment := JsValue.vObj [],
    approval := JsValue.vBool true,
    tidBytes := [0],
    nonceBytes := [0, 0, 0, 0, 0, 0, 0, 9],
    submitRes := { txHash := "deadbeef", code := 0 },
    now := "2024-01-01T00:00:00.000Z" }

/-- The same environment with a denying user. -/
def envDeny : Env := { env0 with approval := JsValue.vBool false }

/-- A well-formed one-off transfer command content. -/
def transferContentOk : List (String × JsValue) :=
  [("fromAccountType", JsValue.vStr "ACCOUNT_TYPE_GENERAL"),
   ("toAccountType", JsValue.vStr "ACCOUNT_TYPE_GENERAL"),
   ("asset", JsValue.vStr "fc7f"),
   ("amount", JsValue.vStr "1"),
   ("to", JsValue.vStr "0x123"),
   ("kind", JsValue.vObj [("oneOff", JsValue.vObj [])])]

/-- A well-formed transfer transaction. -/
def txTransferOk : JsValue := JsValue.vObj [("transfer", JsValue.vObj transferContentOk)]

/-- A transaction with two populated top-level keys. -/
def txTwoKeys : JsValue :=
  JsValue.vObj [("transfer", JsValue.vObj transferContentOk),
                ("orderSubmission", JsValue.vObj [])]

/-- A transaction whose single key is not a known kind (the tests use the
plural `transfers`). -/
def txUnknownKind : JsValue :=
  JsValue.vObj [("transfers", JsValue.vObj transferContentOk)]

/-- A one-off transfer whose `toAccountType` is a schema-valid account
type outside the two the renderer accepts. -/
def txTransferBadAcct : JsValue :=
  JsValue.vObj [("transfer", JsValue.vObj
    [("fromAccountType", JsValue.vStr "ACCOUNT_TYPE_GENERAL"),
     ("toAccountType", JsValue.vStr "ACCOUNT_TYPE_INSURANCE"),
     ("asset", JsValue.vStr "fc7f"),
     ("amount", JsValue.vStr "1"),
     ("to", JsValue.vStr "0x123"),
     ("kind", JsValue.vObj [("oneOff", JsValue.vObj [])])])]

/-- A well-formed transfer carrying an extra field unknown to the
canonical schema. -/
def txTransferExtra : JsValue :=
  JsValue.vObj [("transfer", JsValue.vObj
    (transferContentOk ++ [("fieldUnknownToTheSchema", JsValue.vStr "kept")]))]

/-- Well-formed request parameters around a given transaction, declaring
public key `pkA`. -/
def reqParams (tx : JsValue) : RequestParams :=
  { sendingMode := some (JsValue.vStr "TYPE_SYNC"),
    publicKey := some (JsValue.vStr pkA),
    transaction := some tx,
    networkEndpoints := some ["https://n1.example"] }

/-- The same parameters but declaring public key `pkB` (which does not
match the derived pair `kpA`). -/
def reqParamsB (tx : JsValue) : RequestParams :=
  { sendingMode := some (JsValue.vStr "TYPE_SYNC"),
    publicKey := some (JsValue.vStr pkB),
    transaction := some tx,
    networkEndpoints := some ["https://n1.example"] }

/-- Did key derivation succeed? -/
def isDerived : Except String KeyPair → Bool
  | .ok _ => true
  | .error _ => false

/-- Did the review content build succeed (no render-time throw)? -/
def isOkContent : Except JSONRPCError (List UiElm) → Bool
  | .ok _ => true
  | .error _ => false

/-- Request parameters with a valid sending mode and the given public key,
transaction and endpoint list (used to state claims about well-formed
requests). -/
def mkParams (pk : String) (tx : JsValue) (urls : List String) : RequestParams :=
  { sendingMode := some (JsValue.vStr "TYPE_SYNC"),
    publicKey := some (JsValue.vStr pk),
    transaction := some tx,
    networkEndpoints := some urls }

/-- The JavaScript number one half, as a rational: a fractional index.
Built by the explicit constructor so that its fields are literals. -/
def halfIndex : ℚ := ⟨1, 2, by norm_num, by simp⟩

/-! ## Round-trip lemmas for the modelled codec -/

theorem natDec8_natEnc8 (n : Nat) (rest : Bytes) (h : n < 18446744073709551616) :
    natDec8 (natEnc8 n ++ rest) = some (n, rest) := by
  simp only [natEnc8, List.cons_append, List.nil_append, natDec8, Option.some.injEq,
    Prod.mk.injEq]
  exact ⟨by omega, trivial⟩

theorem decLen_encLen (l rest : Bytes) (h : l.length < 18446744073709551616) :
    decLen (encLen l ++ rest) = some (l, rest) := by
  unfold decLen encLen
  rw [List.append_assoc, natDec8_natEnc8 _ _ h]
  have hle : l.length ≤ (l ++ rest).length := by
    rw [List.length_append]
    exact Nat.le_add_right _ _
  show (if l.length ≤ (l ++ rest).length then
          some ((l ++ rest).take l.length, (l ++ rest).drop l.length) else none) = some (l, rest)
  rw [if_pos hle, List.take_left, List.drop_left]

theorem decStr_encStr (s : String) (rest : Bytes) (h : s.length < 18446744073709551616) :
    decStr (encStr s ++ rest) = some (s, rest) := by
  unfold decStr encStr
  have hlen : (s.data.map Char.toNat).length < 18446744073709551616 := by
    rw [List.length_map]
    exact h
  rw [decLen_encLen _ _ hlen]
  have hcomp : (Char.ofNat ∘ Char.toNat) = id := funext Char.ofNat_toNat
  simp only [List.map_map, hcomp, List.map_id]

theorem natDec8_natEnc8_nil (n : Nat) (h : n < 18446744073709551616) :
    natDec8 (natEnc8 n) = some (n, []) := by
  have := natDec8_natEnc8 n [] h
  rwa [List.append_nil] at this

/-- Decoding the modelled transaction bytes recovers the structure, for
realistic (64-bit-bounded) field sizes. -/
theorem txDecode_txEncode (t : TransactionData)
    (h1 : t.inputData.length < 18446744073709551616)
    (h2 : t.signature.value.length < 18446744073709551616)
    (h3 : t.signature.algo.length < 18446744073709551616)
    (h4 : t.signature.version < 18446744073709551616)
    (h5 : t.txFrom.pubKey.length < 18446744073709551616)
    (h6 : t.version < 18446744073709551616)
    (h7 : t.pow.tid.length < 18446744073709551616)
    (h8 : t.pow.nonce < 18446744073709551616) :
    txDecode (txEncode t) = some t := by
  unfold txEncode txDecode
  simp only [decLen_encLen _ _ h1, decStr_encStr _ _ h2, decStr_encStr _ _ h3,
    natDec8_natEnc8 _ _ h4, decStr_encStr _ _ h5, natDec8_natEnc8 _ _ h6,
    decStr_encStr _ _ h7, natDec8_natEnc8_nil _ h8, Option.some_bind]
  simp

theorem b64Val_b64Char (v : Nat) (h : v < 64) : b64Val (b64Char v) = some v := by
  revert h
  revert v
  decide

theorem b64Char_ne_padChar (v : Nat) (h : v < 64) : b64Char v ≠ padChar := by
  revert h
  revert v
  decide

/-- Base64 decoding inverts base64 encoding on genuine byte lists. -/
theorem b64DecodeAux_b64EncodeAux :
    ∀ bs : Bytes, (∀ b ∈ bs, b < 256) → b64DecodeAux (b64EncodeAux bs) = some bs := by
  intro bs
  induction bs using b64EncodeAux.induct with
  | case1 => intro _; rfl
  | case2 a =>
    intro h
    have ha : a < 256 := h a (by simp)
    simp only [b64EncodeAux, b64DecodeAux]
    rw [b64Val_b64Char (a / 4) (by omega), b64Val_b64Char (a % 4 * 16) (by omega)]
    simp only [Option.some_bind, and_true, if_pos]
    simp only [Option.some.injEq, List.cons.injEq, and_true]
    omega
  | case3 a b =>
    intro h
    have ha : a < 256 := h a (by simp)
    have hb : b < 256 := h b (by simp)
    simp only [b64EncodeAux, b64DecodeAux]
    rw [b64Val_b64Char (a / 4) (by omega), b64Val_b64Char (a % 4 * 16 + b / 16) (by omega),
      b64Val_b64Char (b % 16 * 4) (by omega)]
    simp only [Option.some_bind]
    rw [if_neg (by simp [b64Char_ne_padChar (b % 16 * 4) (by omega)])]
    rw [if_pos (by simp)]
    simp only [Option.some_bind, Option.some.injEq, List.cons.injEq, and_true]
    omega
  | case4 a b c rest ih =>
    intro h
    have ha : a < 256 := h a (by simp)
    have hb : b < 256 := h b (by simp)
    have hc : c < 256 := h c (by simp)
    have hrest : ∀ x ∈ rest, x < 256 := fun x hx => h x (by simp [hx])
    simp only [b64EncodeAux, b64DecodeAux]
    rw [b64Val_b64Char (a / 4) (by omega), b64Val_b64Char (a % 4 * 16 + b / 16) (by omega),
      b64Val_b64Char (b % 16 * 4 + c / 64) (by omega), b64Val_b64Char (c % 64) (by omega)]
    simp only [Option.some_bind]
    rw [if_neg (by simp [b64Char_ne_padChar (b % 16 * 4 + c / 64) (by omega)])]
    rw [if_neg (by simp [b64Char_ne_padChar (c % 64) (by omega)])]
    rw [ih hrest]
    simp only [Option.some_bind, Option.some.injEq, List.cons.injEq, and_true]
    refine ⟨by omega, by omega, by omega⟩

/-- The `fromBase64`/`toBase64` round trip on genuine byte lists. -/
theorem fromBase64_toBase64 (bs : Bytes) (h : ∀ b ∈ bs, b < 256) :
    fromBase64 (toBase64 bs) = some bs := by
  unfold fromBase64 toBase64
  exact b64DecodeAux_b64EncodeAux bs h

end VegaSnap

namespace VegaSnap

theorem hasSubmit_append (l1 l2 : List Event) :
    hasSubmit (l1 ++ l2) = (hasSubmit l1 || hasSubmit l2) := by
  simp [hasSubmit, List.any_append]

theorem hasDialog_append (l1 l2 : List Event) :
    hasDialog (l1 ++ l2) = (hasDialog l1 || hasDialog l2) := by
  simp [hasDialog, List.any_append]

theorem findHealthyNode_submit_free (env : Env) (urls : List String) :
    hasSubmit (findHealthyNode env urls).2 = false := by
  induction urls with
  | nil => rfl
  | cons u rest ih =>
    unfold findHealthyNode
    cases h : env.nodeHealth u with
    | some b => simp [hasSubmit, isSubmitEv]
    | none => simp [hasSubmit, isSubmitEv, hasSubmit] at ih ⊢; exact ih

theorem findHealthyNode_dialog_free (env : Env) (urls : List String) :
    hasDialog (findHealthyNode env urls).2 = false := by
  induction urls with
  | nil => rfl
  | cons u rest ih =>
    unfold findHealthyNode
    cases h : env.nodeHealth u with
    | some b => simp [hasDialog, isDialogEv]
    | none => simp [hasDialog, isDialogEv, hasDialog] at ih ⊢; exact ih

theorem deriveKeyPair_submit_free (ext : Ext) (env : Env) (q : ℚ) :
    hasSubmit (deriveKeyPair ext env q).2 = false := by
  unfold deriveKeyPair
  split <;> simp [hasSubmit, isSubmitEv]

theorem deriveKeyPair_dialog_free (ext : Ext) (env : Env) (q : ℚ) :
    hasDialog (deriveKeyPair ext env q).2 = false := by
  unfold deriveKeyPair
  split <;> simp [hasDialog, isDialogEv]

theorem errorBranch {e : Failure} {tr : List Event}
    (hsub : hasSubmit tr = false) (hdia : hasDialog tr = false) :
    hasSubmit ((Except.error e, tr) : Except Failure SendResult × List Event).2 = false ∧
    (∀ r, ((Except.error e, tr) : Except Failure SendResult × List Event).1 ≠ Except.ok r) ∧
    (hasDialog ((Except.error e, tr) : Except Failure SendResult × List Event).2 = true →
      ((Except.error e, tr) : Except Failure SendResult × List Event).1 =
        Except.error (Failure.rpc transactionDenied)) := by
  refine ⟨hsub, ?_, ?_⟩
  · intro r h
    cases h
  · intro h
    exact absurd h (by simp [hdia])

theorem flow_denied (ext : Ext) (env : Env) (origin : String) (p : RequestParams)
    (hden : isTrueVal env.approval = false) :
    hasSubmit (sendTransactionFlow ext env origin p).2 = false ∧
    (∀ r, (sendTransactionFlow ext env origin p).1 ≠ Except.ok r) ∧
    (hasDialog (sendTransactionFlow ext env origin p).2 = true →
      (sendTransactionFlow ext env origin p).1 = Except.error (Failure.rpc transactionDenied)) := by
  unfold sendTransactionFlow
  split
  · exact errorBranch rfl rfl
  · split
    · exact errorBranch rfl rfl
    · split
      · exact errorBranch rfl rfl
      · split
        · exact errorBranch rfl rfl
        · split
          · exact errorBranch rfl rfl
          · split
            · rename_i m evs0 hderive
              have hs0 : hasSubmit evs0 = false := by
                have h0 := deriveKeyPair_submit_free ext env 0
                rw [hderive] at h0
                exact h0
              have hd0 : hasDialog evs0 = false := by
                have h0 := deriveKeyPair_dialog_free ext env 0
                rw [hderive] at h0
                exact h0
              exact errorBranch hs0 hd0
            · rename_i pair evs0 hderive
              have hs0 : hasSubmit evs0 = false := by
                have h0 := deriveKeyPair_submit_free ext env 0
                rw [hderive] at h0
                exact h0
              have hd0 : hasDialog evs0 = false := by
                have h0 := deriveKeyPair_dialog_free ext env 0
                rw [hderive] at h0
                exact h0
              split
              · rename_i f evs1 hfind
                have hs1 : hasSubmit evs1 = false := by
                  have h1 := congrArg (fun z => hasSubmit z.2) hfind
                  simp only at h1
                  rw [← h1]
                  exact findHealthyNode_submit_free _ _
                have hd1 : hasDialog evs1 = false := by
                  have h1 := congrArg (fun z => hasDialog z.2) hfind
                  simp only at h1
                  rw [← h1]
                  exact findHealthyNode_dialog_free _ _
                refine errorBranch ?_ ?_
                · simp only [hasSubmit_append, hs0, hs1]
                  rfl
                · simp only [hasDialog_append, hd0, hd1]
                  rfl
              · rename_i node evs1 hfind
                have hs1 : hasSubmit evs1 = false := by
                  have h1 := congrArg (fun z => hasSubmit z.2) hfind
                  simp only at h1
                  rw [← h1]
                  exact findHealthyNode_submit_free _ _
                have hd1 : hasDialog evs1 = false := by
                  have h1 := congrArg (fun z => hasDialog z.2) hfind
                  simp only at h1
                  rw [← h1]
                  exact findHealthyNode_dialog_free _ _
                split
                · dsimp only
                  split
                  · refine errorBranch ?_ ?_
                    · simp only [hasSubmit_append, hs0, hs1]
                      rfl
                    · simp only [hasDialog_append, hd0, hd1]
                      rfl
                  · refine ⟨?_, ?_, ?_⟩
                    · simp only [hasSubmit_append, hs0, hs1]
                      rfl
                    · intro r h
                      cases h
                    · intro _
                      rfl
                · rename_i happ
                  rw [hden] at happ
                  simp at happ

end VegaSnap

namespace VegaSnap

/-- C1: for every `client.send_transaction` request, whenever the external
review step returns any value other than strictly `true`, no raw
transaction is ever submitted, the call cannot succeed, and — whenever the
review dialog was actually reached — the request terminates with the
"transaction denied" envelope (code -4). -/
theorem send_transaction_denied_never_submits (ext : Ext) (env : Env) (origin : String)
    (p : RequestParams) (hden : isTrueVal env.approval = false) :
    hasSubmit (onRpcRequest ext env origin "client.send_transaction" p).2 = false ∧
    isSent (onRpcRequest ext env origin "client.send_transaction" p).1 = false ∧
    (hasDialog (onRpcRequest ext env origin "client.send_transaction" p).2 = true →
      outcomeFailure (onRpcRequest ext env origin "client.send_transaction" p).1 =
        some { code := -4, message := "Transaction denied",
               data := some "The user denied the transaction" }) := by
  obtain ⟨h1, h2, h3⟩ := flow_denied ext env origin p hden
  refine ⟨h1, ?_, ?_⟩
  · show isSent (wrapOutcome (sendTransactionFlow ext env origin p).1) = false
    cases hcase : (sendTransactionFlow ext env origin p).1 with
    | ok r => exact absurd hcase (h2 r)
    | error f =>
      cases f <;> rfl
  · intro hd
    have h3x := h3 hd
    show outcomeFailure (wrapOutcome (sendTransactionFlow ext env origin p).1) = _
    rw [h3x]
    rfl

theorem send_transaction_denied_never_submits_witness :
    isTrueVal envDeny.approval = false ∧
    (hasSubmit (onRpcRequest ext0 envDeny "dapp.example" "client.send_transaction"
        (reqParams txTransferOk)).2 = false ∧
     isSent (onRpcRequest ext0 envDeny "dapp.example" "client.send_transaction"
        (reqParams txTransferOk)).1 = false ∧
     (hasDialog (onRpcRequest ext0 envDeny "dapp.example" "client.send_transaction"
        (reqParams txTransferOk)).2 = true →
      outcomeFailure (onRpcRequest ext0 envDeny "dapp.example" "client.send_transaction"
        (reqParams txTransferOk)).1 =
        some { code := -4, message := "Transaction denied",
               data := some "The user denied the transaction" })) :=
  ⟨rfl, send_transaction_denied_never_submits ext0 envDeny "dapp.example"
    (reqParams txTransferOk) rfl⟩

end VegaSnap

namespace VegaSnap

/-- C2 evaluation: at a request whose declared public key (64 times `b`)
differs from the derived pair's key, the pipeline does not submit — but it
fails with `invalidParameters` carrying the misspelled detail
"Uknown public key" (code -1), not with the declared `unknownPublicKey`
error (code -3) that the claim and `errors.ts` prescribe. -/
theorem send_key_mismatch_invalid_parameters_eval :
    outcomeFailure (onRpcRequest ext0 env0 "dapp.example" "client.send_transaction"
        (reqParamsB txTransferOk)).1 =
      some { code := -1, message := "Invalid parameters", data := some "Uknown public key" } ∧
    outcomeFailure (onRpcRequest ext0 env0 "dapp.example" "client.send_transaction"
        (reqParamsB txTransferOk)).1 ≠ some unknownPublicKey.toJSON ∧
    hasSubmit (onRpcRequest ext0 env0 "dapp.example" "client.send_transaction"
        (reqParamsB txTransferOk)).2 = false :=
  ⟨rfl, by decide, rfl⟩

/-- C5: every expected failure condition maps to the fixed error envelope
exactly — method not found -32601, invalid parameters -1, unknown public
key -3, transaction denied -4, transaction failed -5, no healthy node -6 —
and the boundary returns a `JSONRPCError` as its `toJSON` envelope rather
than letting it escape; an unrecognised method yields the method-not-found
envelope. -/
theorem error_envelope_table (ext : Ext) (env : Env) (origin m : String) (p : RequestParams)
    (hm : m ∉ ["client.list_keys", "client.get_chain_id", "client.send_transaction",
               "client.connect_wallet", "client.disconnect_wallet"]) :
    methodNotFound.toJSON =
      { code := -32601, message := "Method not found", data := none } ∧
    (∀ s, (invalidParameters s).toJSON =
      { code := -1, message := "Invalid parameters", data := some s }) ∧
    unknownPublicKey.toJSON =
      { code := -3, message := "Unknown public key",
        data := some "The public key is not known to the wallet" } ∧
    transactionDenied.toJSON =
      { code := -4, message := "Transaction denied",
        data := some "The user denied the transaction" } ∧
    (∀ c, (transactionFailed c).toJSON =
      { code := -5, message := "Transaction failed", data := some c }) ∧
    noHealthyNode.toJSON =
      { code := -6, message := "No healthy node", data := some "No healthy node found" } ∧
    (∀ e, wrapOutcome (Except.error (Failure.rpc e)) = RpcOutcome.failure e.toJSON) ∧
    (onRpcRequest ext env origin m p).1 = RpcOutcome.failure
      { code := -32601, message := "Method not found", data := none } := by
  refine ⟨rfl, fun s => rfl, rfl, rfl, fun c => rfl, rfl, fun e => rfl, ?_⟩
  unfold onRpcRequest
  split
  · simp at hm
  · simp at hm
  · simp at hm
  · simp at hm
  · simp at hm
  · rfl

end VegaSnap

namespace VegaSnap

theorem error_envelope_table_witness :
    (onRpcRequest ext0 env0 "dapp.example" "foo" (reqParams txTransferOk)).1 =
      RpcOutcome.failure { code := -32601, message := "Method not found", data := none } :=
  (error_envelope_table ext0 env0 "dapp.example" "foo" (reqParams txTransferOk)
    (by decide)).2.2.2.2.2.2.2

end VegaSnap

namespace VegaSnap

/-- C6 (amended): an index below zero or at least `2 ** 31` makes
`deriveKeyPair` fail with the bounds-check error before any entropy
request; every index inside the numeric interval `[0, 2^31)` — integral or
not — passes the bounds check and the entropy request is issued. -/
theorem deriveKeyPair_bounds (ext : Ext) (env : Env) (q : ℚ) :
    ((q < 0 ∨ 2147483648 ≤ q) →
      (deriveKeyPair ext env q).1 = Except.error "Key index out of bounds" ∧
      (deriveKeyPair ext env q).2 = []) ∧
    ((0 ≤ q ∧ q < 2147483648) →
      isDerived (deriveKeyPair ext env q).1 = true ∧
      (deriveKeyPair ext env q).2 = [Event.entropyRequest (derivationPath q)]) := by
  constructor
  · intro hq
    unfold deriveKeyPair
    rw [if_neg ?hc]
    · exact ⟨rfl, rfl⟩
    case hc =>
      intro hc
      rcases hq with h | h
      · exact absurd hc.1 (not_le.mpr h)
      · exact absurd hc.2 (not_lt.mpr h)
  · intro hq
    unfold deriveKeyPair
    rw [if_pos hq]
    exact ⟨rfl, rfl⟩

theorem deriveKeyPair_bounds_witness :
    ((-1 : ℚ) < 0 ∨ (2147483648 : ℚ) ≤ -1) ∧
    ((deriveKeyPair ext0 env0 (-1)).1 = Except.error "Key index out of bounds" ∧
     (deriveKeyPair ext0 env0 (-1)).2 = []) ∧
    ((0 : ℚ) ≤ 3 ∧ (3 : ℚ) < 2147483648) ∧
    (isDerived (deriveKeyPair ext0 env0 3).1 = true ∧
     (deriveKeyPair ext0 env0 3).2 = [Event.entropyRequest (derivationPath 3)]) :=
  ⟨Or.inl (by norm_num),
   (deriveKeyPair_bounds ext0 env0 (-1)).1 (Or.inl (by norm_num)),
   ⟨by norm_num, by norm_num⟩,
   (deriveKeyPair_bounds ext0 env0 3).2 ⟨by norm_num, by norm_num⟩⟩

/-- C6 counterexample: the fractional index one half is not an integer
(the claim counts it outside the valid set), yet the bounds check of
`deriveKeyPair` accepts it and the host entropy request is issued. -/
theorem deriveKeyPair_fractional_entropy_requested :
    halfIndex.den ≠ 1 ∧
    isDerived (deriveKeyPair ext0 env0 halfIndex).1 = true ∧
    (deriveKeyPair ext0 env0 halfIndex).2 =
      [Event.entropyRequest (derivationPath halfIndex)] :=
  ⟨by decide, rfl, rfl⟩

/-- C7: for every valid index, two runs of `deriveKeyPair` under hosts
that return the same entropy for the derivation path of that index yield
key pairs with identical public keys — the derivation consults nothing but
the entropy at its own path. -/
theorem deriveKeyPair_deterministic (ext : Ext) (env1 env2 : Env) (i : ℚ)
    (hvalid : 0 ≤ i ∧ i < 2147483648)
    (hseed : env1.entropyAt (derivationPath i) = env2.entropyAt (derivationPath i)) :
    ∃ kp1 kp2 : KeyPair,
      (deriveKeyPair ext env1 i).1 = Except.ok kp1 ∧
      (deriveKeyPair ext env2 i).1 = Except.ok kp2 ∧
      kp1.publicKey = kp2.publicKey := by
  unfold deriveKeyPair
  rw [if_pos hvalid, if_pos hvalid]
  refine ⟨_, _, rfl, rfl, ?_⟩
  rw [hseed]

theorem deriveKeyPair_deterministic_witness :
    ((0 : ℚ) ≤ 0 ∧ (0 : ℚ) < 2147483648) ∧
    ∃ kp1 kp2 : KeyPair,
      (deriveKeyPair ext0 env0 0).1 = Except.ok kp1 ∧
      (deriveKeyPair ext0 env0 0).1 = Except.ok kp2 ∧
      kp1.publicKey = kp2.publicKey :=
  ⟨⟨by norm_num, by norm_num⟩, deriveKeyPair_deterministic ext0 env0 env0 0
    ⟨by norm_num, by norm_num⟩ rfl⟩

end VegaSnap

namespace VegaSnap

/-- C3: the raw bytes and the JSON mirror built by `encodeTransaction`
represent the identical logical transaction: decoding the raw bytes yields
a structure whose input data is the base64-decode of the mirror input
data, whose signature (value, algo, version), sender public key, version
constant 3 and pow tid agree with the mirror field by field, and whose pow
nonce string-renders to the mirror nonce. -/
theorem encodeTransaction_raw_json_mirror
    (inputData : Bytes) (kp : KeyPair) (pow : PoW) (chainId : String)
    (hbytes : ∀ b ∈ inputData, b < 256)
    (h1 : inputData.length < 18446744073709551616)
    (h2 : (toHex (kp.signFn inputData chainId)).length < 18446744073709551616)
    (h3 : kp.algoName.length < 18446744073709551616)
    (h4 : kp.algoVersion < 18446744073709551616)
    (h5 : kp.publicKey.length < 18446744073709551616)
    (h7 : pow.tid.length < 18446744073709551616)
    (h8 : pow.nonce < 18446744073709551616) :
    ∃ t : TransactionData,
      txDecode (encodeTransaction inputData kp pow chainId).raw = some t ∧
      fromBase64 (encodeTransaction inputData kp pow chainId).json.inputData =
        some t.inputData ∧
      t.signature = (encodeTransaction inputData kp pow chainId).json.signature ∧
      t.txFrom = (encodeTransaction inputData kp pow chainId).json.txFrom ∧
      t.version = 3 ∧
      (encodeTransaction inputData kp pow chainId).json.version = 3 ∧
      t.pow.tid = (encodeTransaction inputData kp pow chainId).json.pow.tid ∧
      toString t.pow.nonce = (encodeTransaction inputData kp pow chainId).json.pow.nonce := by
  refine ⟨{ inputData := inputData,
            signature := { value := toHex (kp.signFn inputData chainId),
                           algo := kp.algoName, version := kp.algoVersion },
            txFrom := { pubKey := kp.publicKey },
            version := 3,
            pow := pow }, ?_, ?_, rfl, rfl, rfl, rfl, rfl, rfl⟩
  · exact txDecode_txEncode _ h1 h2 h3 h4 h5 (by norm_num) h7 h8
  · exact fromBase64_toBase64 inputData hbytes

theorem encodeTransaction_raw_json_mirror_witness :
    (∀ b ∈ ([1, 2, 255] : Bytes), b < 256) ∧
    ∃ t : TransactionData,
      txDecode (encodeTransaction [1, 2, 255] kpA { tid := "cd", nonce := 5 } "x").raw =
        some t ∧
      fromBase64
          (encodeTransaction [1, 2, 255] kpA { tid := "cd", nonce := 5 } "x").json.inputData =
        some t.inputData ∧
      t.signature =
        (encodeTransaction [1, 2, 255] kpA { tid := "cd", nonce := 5 } "x").json.signature ∧
      t.txFrom =
        (encodeTransaction [1, 2, 255] kpA { tid := "cd", nonce := 5 } "x").json.txFrom ∧
      t.version = 3 ∧
      (encodeTransaction [1, 2, 255] kpA { tid := "cd", nonce := 5 } "x").json.version = 3 ∧
      t.pow.tid =
        (encodeTransaction [1, 2, 255] kpA { tid := "cd", nonce := 5 } "x").json.pow.tid ∧
      toString t.pow.nonce =
        (encodeTransaction [1, 2, 255] kpA { tid := "cd", nonce := 5 } "x").json.pow.nonce :=
  ⟨by decide,
   encodeTransaction_raw_json_mirror [1, 2, 255] kpA { tid := "cd", nonce := 5 } "x"
     (by decide) (by decide) (by decide) (by decide) (by decide) (by decide) (by decide)
     (by decide)⟩

end VegaSnap

namespace VegaSnap

theorem reviewedCommands_append (l1 l2 : List Event) :
    reviewedCommands (l1 ++ l2) = reviewedCommands l1 ++ reviewedCommands l2 := by
  simp [reviewedCommands, List.filterMap_append]

theorem encodedCommands_append (l1 l2 : List Event) :
    encodedCommands (l1 ++ l2) = encodedCommands l1 ++ encodedCommands l2 := by
  simp [encodedCommands, List.filterMap_append]

theorem findHealthyNode_reviewed_nil (env : Env) (urls : List String) :
    reviewedCommands (findHealthyNode env urls).2 = [] := by
  induction urls with
  | nil => rfl
  | cons u rest ih =>
    unfold findHealthyNode
    cases h : env.nodeHealth u with
    | some b => rfl
    | none =>
      simp only [reviewedCommands, List.filterMap_cons] at ih ⊢
      exact ih

theorem findHealthyNode_encoded_nil (env : Env) (urls : List String) :
    encodedCommands (findHealthyNode env urls).2 = [] := by
  induction urls with
  | nil => rfl
  | cons u rest ih =>
    unfold findHealthyNode
    cases h : env.nodeHealth u with
    | some b => rfl
    | none =>
      simp only [encodedCommands, List.filterMap_cons] at ih ⊢
      exact ih

theorem deriveKeyPair_reviewed_nil (ext : Ext) (env : Env) (q : ℚ) :
    reviewedCommands (deriveKeyPair ext env q).2 = [] := by
  unfold deriveKeyPair
  split <;> rfl

theorem deriveKeyPair_encoded_nil (ext : Ext) (env : Env) (q : ℚ) :
    encodedCommands (deriveKeyPair ext env q).2 = [] := by
  unfold deriveKeyPair
  split <;> rfl

theorem submitRaw_commands (env : Env) (raw64 mode : String) :
    encodedCommands (submitRaw env raw64 mode).2 = [] ∧
    reviewedCommands (submitRaw env raw64 mode).2 = [] := by
  unfold submitRaw
  split <;> exact ⟨rfl, rfl⟩

theorem send_commands (ext : Ext) (env : Env) (node : NodeHandle) (tx : JsValue)
    (mode pk : String) :
    encodedCommands (send ext env node tx mode pk).2 = [tx] ∧
    reviewedCommands (send ext env node tx mode pk).2 = [] := by
  unfold send
  split
  · rename_i m evs2 hderive
    have he : encodedCommands evs2 = [] := by
      have h0 := congrArg (fun z => encodedCommands z.2) hderive
      simp only at h0
      rw [← h0]
      exact deriveKeyPair_encoded_nil _ _ _
    have hr : reviewedCommands evs2 = [] := by
      have h0 := congrArg (fun z => reviewedCommands z.2) hderive
      simp only at h0
      rw [← h0]
      exact deriveKeyPair_reviewed_nil _ _ _
    constructor
    · simp [encodedCommands_append, encodedCommands, List.filterMap_cons] at he ⊢
      exact he
    · simp [reviewedCommands_append, reviewedCommands, List.filterMap_cons] at hr ⊢
      exact hr
  · rename_i pair evs2 hderive
    have he : encodedCommands evs2 = [] := by
      have h0 := congrArg (fun z => encodedCommands z.2) hderive
      simp only at h0
      rw [← h0]
      exact deriveKeyPair_encoded_nil _ _ _
    have hr : reviewedCommands evs2 = [] := by
      have h0 := congrArg (fun z => reviewedCommands z.2) hderive
      simp only at h0
      rw [← h0]
      exact deriveKeyPair_reviewed_nil _ _ _
    split
    · dsimp only
      split
      · rename_i f evs4 hsub
        have hse : encodedCommands evs4 = [] := by
          have h0 := congrArg (fun z => encodedCommands z.2) hsub
          simp only at h0
          rw [← h0]
          exact (submitRaw_commands _ _ _).1
        have hsr : reviewedCommands evs4 = [] := by
          have h0 := congrArg (fun z => reviewedCommands z.2) hsub
          simp only at h0
          rw [← h0]
          exact (submitRaw_commands _ _ _).2
        constructor
        · simp [encodedCommands_append, encodedCommands, List.filterMap_cons] at he hse ⊢
          exact ⟨he, hse⟩
        · simp [reviewedCommands_append, reviewedCommands, List.filterMap_cons] at hr hsr ⊢
          exact ⟨hr, hsr⟩
      · rename_i res evs4 hsub
        have hse : encodedCommands evs4 = [] := by
          have h0 := congrArg (fun z => encodedCommands z.2) hsub
          simp only at h0
          rw [← h0]
          exact (submitRaw_commands _ _ _).1
        have hsr : reviewedCommands evs4 = [] := by
          have h0 := congrArg (fun z => reviewedCommands z.2) hsub
          simp only at h0
          rw [← h0]
          exact (submitRaw_commands _ _ _).2
        constructor
        · simp [encodedCommands_append, encodedCommands, List.filterMap_cons] at he hse ⊢
          exact ⟨he, hse⟩
        · simp [reviewedCommands_append, reviewedCommands, List.filterMap_cons] at hr hsr ⊢
          exact ⟨hr, hsr⟩
    · constructor
      · simp [encodedCommands_append, encodedCommands, List.filterMap_cons] at he ⊢
        exact he
      · simp [reviewedCommands_append, reviewedCommands, List.filterMap_cons] at hr ⊢
        exact hr

theorem reviewedCommands_fe : reviewedCommands [Event.fetchEnrichment] = [] := rfl

theorem encodedCommands_fe : encodedCommands [Event.fetchEnrichment] = [] := rfl

theorem reviewedCommands_rev (t : JsValue) :
    reviewedCommands [Event.review t] = [t] := rfl

theorem encodedCommands_rev (t : JsValue) :
    encodedCommands [Event.review t] = [] := rfl

theorem reviewedCommands_revDialog (t : JsValue) :
    reviewedCommands [Event.review t, Event.showDialog] = [t] := rfl

theorem encodedCommands_revDialog (t : JsValue) :
    encodedCommands [Event.review t, Event.showDialog] = [] := rfl

/-- C4 (amended): no sanitize operation is applied anywhere in the
pipeline — `sanitizeCommand` exists only as commented-out code — so every
command value shown for review and every command handed to
`InputData.encode` is the caller-supplied transaction object unchanged. -/
theorem command_passed_verbatim (ext : Ext) (env : Env) (origin : String)
    (p : RequestParams) (tx : JsValue) (htx : p.transaction = some tx) :
    (∀ c ∈ reviewedCommands
        (onRpcRequest ext env origin "client.send_transaction" p).2, c = tx) ∧
    (∀ c ∈ encodedCommands
        (onRpcRequest ext env origin "client.send_transaction" p).2, c = tx) := by
  show (∀ c ∈ reviewedCommands (sendTransactionFlow ext env origin p).2, c = tx) ∧
       (∀ c ∈ encodedCommands (sendTransactionFlow ext env origin p).2, c = tx)
  have hnil : (∀ c ∈ reviewedCommands ([] : List Event), c = tx) ∧
      (∀ c ∈ encodedCommands ([] : List Event), c = tx) := by
    constructor <;> intro c hc <;> simp [reviewedCommands, encodedCommands] at hc
  unfold sendTransactionFlow
  split
  · exact hnil
  · split
    · exact hnil
    · split
      · exact hnil
      · split
        · exact hnil
        · split
          · exact hnil
          · split
            · rename_i m evs0 hderive
              have hr0 : reviewedCommands evs0 = [] := by
                have h0 := congrArg (fun z => reviewedCommands z.2) hderive
                simp only at h0
                rw [← h0]
                exact deriveKeyPair_reviewed_nil _ _ _
              have he0 : encodedCommands evs0 = [] := by
                have h0 := congrArg (fun z => encodedCommands z.2) hderive
                simp only at h0
                rw [← h0]
                exact deriveKeyPair_encoded_nil _ _ _
              constructor <;> intro c hc
              · rw [hr0] at hc
                simp at hc
              · rw [he0] at hc
                simp at hc
            · rename_i pair evs0 hderive
              have hr0 : reviewedCommands evs0 = [] := by
                have h0 := congrArg (fun z => reviewedCommands z.2) hderive
                simp only at h0
                rw [← h0]
                exact deriveKeyPair_reviewed_nil _ _ _
              have he0 : encodedCommands evs0 = [] := by
                have h0 := congrArg (fun z => encodedCommands z.2) hderive
                simp only at h0
                rw [← h0]
                exact deriveKeyPair_encoded_nil _ _ _
              split
              · rename_i f evs1 hfind
                have hr1 : reviewedCommands evs1 = [] := by
                  have h1 := congrArg (fun z => reviewedCommands z.2) hfind
                  simp only at h1
                  rw [← h1]
                  exact findHealthyNode_reviewed_nil _ _
                have he1 : encodedCommands evs1 = [] := by
                  have h1 := congrArg (fun z => encodedCommands z.2) hfind
                  simp only at h1
                  rw [← h1]
                  exact findHealthyNode_encoded_nil _ _
                constructor <;> intro c hc
                · rw [reviewedCommands_append, hr0, hr1] at hc
                  simp at hc
                · rw [encodedCommands_append, he0, he1] at hc
                  simp at hc
              · rename_i node evs1 hfind
                have hr1 : reviewedCommands evs1 = [] := by
                  have h1 := congrArg (fun z => reviewedCommands z.2) hfind
                  simp only at h1
                  rw [← h1]
                  exact findHealthyNode_reviewed_nil _ _
                have he1 : encodedCommands evs1 = [] := by
                  have h1 := congrArg (fun z => encodedCommands z.2) hfind
                  simp only at h1
                  rw [← h1]
                  exact findHealthyNode_encoded_nil _ _
                split
                · dsimp only
                  split
                  · constructor <;> intro c hc
                    · rw [reviewedCommands_append, reviewedCommands_append,
                        reviewedCommands_append, hr0, hr1, reviewedCommands_fe,
                        reviewedCommands_rev] at hc
                      simp [htx] at hc
                      exact hc
                    · rw [encodedCommands_append, encodedCommands_append,
                        encodedCommands_append, he0, he1, encodedCommands_fe,
                        encodedCommands_rev] at hc
                      simp at hc
                  · constructor <;> intro c hc
                    · rw [reviewedCommands_append, reviewedCommands_append,
                        reviewedCommands_append, hr0, hr1, reviewedCommands_fe,
                        reviewedCommands_revDialog] at hc
                      simp [htx] at hc
                      exact hc
                    · rw [encodedCommands_append, encodedCommands_append,
                        encodedCommands_append, he0, he1, encodedCommands_fe,
                        encodedCommands_revDialog] at hc
                      simp at hc
                · dsimp only
                  split
                  · constructor <;> intro c hc
                    · rw [reviewedCommands_append, reviewedCommands_append,
                        reviewedCommands_append, hr0, hr1, reviewedCommands_fe,
                        reviewedCommands_rev] at hc
                      simp [htx] at hc
                      exact hc
                    · rw [encodedCommands_append, encodedCommands_append,
                        encodedCommands_append, he0, he1, encodedCommands_fe,
                        encodedCommands_rev] at hc
                      simp at hc
                  · constructor <;> intro c hc
                    · rw [reviewedCommands_append, reviewedCommands_append,
                        reviewedCommands_append, reviewedCommands_append, hr0, hr1,
                        reviewedCommands_fe, reviewedCommands_revDialog,
                        (send_commands ext env _ _ _ _).2] at hc
                      simp [htx] at hc
                      exact hc
                    · rw [encodedCommands_append, encodedCommands_append,
                        encodedCommands_append, encodedCommands_append, he0, he1,
                        encodedCommands_fe, encodedCommands_revDialog,
                        (send_commands ext env _ _ _ _).1] at hc
                      simp [htx] at hc
                      exact hc

end VegaSnap

namespace VegaSnap

/-- C4 counterexample: a transfer carrying a field unknown to the
canonical schema flows through review and input-data encoding verbatim —
the unknown field is still present in the command shown for review and in
the command handed to `InputData.encode`, and the submission succeeds, so
no sanitize operation is applied before display or submission. -/
theorem sanitize_not_applied_eval :
    JsValue.getOpt (txTransferExtra.get "transfer") "fieldUnknownToTheSchema" =
      some (JsValue.vStr "kept") ∧
    reviewedCommands (onRpcRequest ext0 env0 "dapp.example" "client.send_transaction"
        (reqParams txTransferExtra)).2 = [txTransferExtra] ∧
    encodedCommands (onRpcRequest ext0 env0 "dapp.example" "client.send_transaction"
        (reqParams txTransferExtra)).2 = [txTransferExtra] ∧
    isSent (onRpcRequest ext0 env0 "dapp.example" "client.send_transaction"
        (reqParams txTransferExtra)).1 = true :=
  ⟨rfl, rfl, rfl, rfl⟩

theorem command_passed_verbatim_witness :
    (reqParams txTransferExtra).transaction = some txTransferExtra ∧
    ((∀ c ∈ reviewedCommands (onRpcRequest ext0 env0 "dapp.example"
        "client.send_transaction" (reqParams txTransferExtra)).2, c = txTransferExtra) ∧
     (∀ c ∈ encodedCommands (onRpcRequest ext0 env0 "dapp.example"
        "client.send_transaction" (reqParams txTransferExtra)).2, c = txTransferExtra)) :=
  ⟨rfl, command_passed_verbatim ext0 env0 "dapp.example" (reqParams txTransferExtra)
    txTransferExtra rfl⟩

end VegaSnap

namespace VegaSnap

theorem deriveKeyPair_zero (ext : Ext) (env : Env) :
    deriveKeyPair ext env 0 =
      (Except.ok (ext.fromSeed (env.entropyAt (derivationPath 0)).index
        (fromHex (dropHexPrefixTwo (env.entropyAt (derivationPath 0)).privateKey))),
       [Event.entropyRequest (derivationPath 0)]) := by
  unfold deriveKeyPair
  rw [if_pos (by norm_num)]

theorem findHealthyNode_single (env : Env) (u : String) (b : LatestBlock)
    (hnode : env.nodeHealth u = some b) :
    findHealthyNode env [u] = (Except.ok { url := u, block := b }, [Event.probe u]) := by
  unfold findHealthyNode
  rw [hnode]

theorem reviewContent_invalid_tx (ext : Ext) (origin : String) (tx : JsValue)
    (entry : String) (idx : Nat) (pkk : String) (enr : JsValue)
    (hkeys : tx.objKeys.length ≠ 1) :
    reviewContent ext origin tx entry idx pkk enr =
      Except.error (invalidParameters "Invalid transaction") := by
  unfold reviewContent transactionTitle
  rw [if_pos hkeys]
  rfl

theorem reviewContent_unknown_kind (ext : Ext) (origin : String) (tx : JsValue)
    (entry : String) (idx : Nat) (pkk : String) (enr : JsValue) (k : String)
    (hk : tx.objKeys = [k]) (hkn : k ∉ titleKeys) :
    reviewContent ext origin tx entry idx pkk enr =
      Except.error (invalidParameters "Unknown transaction type") := by
  unfold reviewContent transactionTitle
  rw [hk]
  simp only [List.length_cons, List.length_nil]
  rw [if_neg (by norm_num)]
  simp only [List.headD_cons]
  split <;> first | rfl | simp_all [titleKeys]

end VegaSnap

namespace VegaSnap

theorem flow_review_error (ext : Ext) (env : Env) (origin pk u : String) (b : LatestBlock)
    (tx : JsValue) (e : JSONRPCError)
    (hpk : isHex64 pk = true) (hnode : env.nodeHealth u = some b)
    (hrc : reviewContent ext origin tx u 0
        (ext.fromSeed (env.entropyAt (derivationPath 0)).index
          (fromHex (dropHexPrefixTwo (env.entropyAt (derivationPath 0)).privateKey))).publicKey
        env.enrichment = Except.error e) :
    sendTransactionFlow ext env origin (mkParams pk tx [u]) =
      (Except.error (Failure.rpc e),
       [Event.entropyRequest (derivationPath 0), Event.probe u, Event.fetchEnrichment,
        Event.review tx]) := by
  unfold sendTransactionFlow
  split
  · rename_i heq
    simp [mkParams] at heq
  · rename_i urls heq
    have hu : urls = [u] := by
      simp [mkParams] at heq
      exact heq.symm
    subst hu
    split
    · rename_i hempty
      simp at hempty
    · split
      · rename_i hmode
        simp [mkParams, validSendingMode] at hmode
      · split
        · rename_i heqpk
          simp [mkParams, pubKeyStr] at heqpk
        · rename_i pk2 heqpk
          have hpk2 : pk2 = pk := by
            simp [mkParams, pubKeyStr] at heqpk
            exact heqpk.symm
          subst hpk2
          split
          · rename_i hhex
            rw [hpk] at hhex
            simp at hhex
          · split
            · rename_i m evs0 hderive
              rw [deriveKeyPair_zero] at hderive
              cases hderive
            · rename_i pair evs0 hderive
              rw [deriveKeyPair_zero] at hderive
              injection hderive with h1 h2
              injection h1 with h1
              subst h1
              subst h2
              split
              · rename_i f evs1 hfind
                rw [findHealthyNode_single env u b hnode] at hfind
                cases hfind
              · rename_i node evs1 hfind
                rw [findHealthyNode_single env u b hnode] at hfind
                injection hfind with h1 h2
                injection h1 with h1
                subst h1
                subst h2
                simp only [mkParams, Option.getD_some]
                rw [hrc]
                rfl

end VegaSnap

namespace VegaSnap

/-- C8 (amended): a command without exactly one top-level key is rejected
with invalid-parameters ("Invalid transaction"), and a single unknown kind
with "Unknown transaction type"; the rejection happens at review-content
time — before the confirmation dialog and before any submission — but
after the node health probe, i.e. not before every network call. -/
theorem malformed_command_rejected_after_probe (ext : Ext) (env : Env)
    (origin pk u : String) (b : LatestBlock) (tx : JsValue)
    (hpk : isHex64 pk = true) (hnode : env.nodeHealth u = some b) :
    (tx.objKeys.length ≠ 1 →
      outcomeFailure (onRpcRequest ext env origin "client.send_transaction"
          (mkParams pk tx [u])).1 =
        some { code := -1, message := "Invalid parameters",
               data := some "Invalid transaction" } ∧
      hasDialog (onRpcRequest ext env origin "client.send_transaction"
          (mkParams pk tx [u])).2 = false ∧
      hasSubmit (onRpcRequest ext env origin "client.send_transaction"
          (mkParams pk tx [u])).2 = false ∧
      hasNetwork (onRpcRequest ext env origin "client.send_transaction"
          (mkParams pk tx [u])).2 = true) ∧
    (∀ k, tx.objKeys = [k] → k ∉ titleKeys →
      outcomeFailure (onRpcRequest ext env origin "client.send_transaction"
          (mkParams pk tx [u])).1 =
        some { code := -1, message := "Invalid parameters",
               data := some "Unknown transaction type" } ∧
      hasDialog (onRpcRequest ext env origin "client.send_transaction"
          (mkParams pk tx [u])).2 = false ∧
      hasSubmit (onRpcRequest ext env origin "client.send_transaction"
          (mkParams pk tx [u])).2 = false ∧
      hasNetwork (onRpcRequest ext env origin "client.send_transaction"
          (mkParams pk tx [u])).2 = true) := by
  have hon : onRpcRequest ext env origin "client.send_transaction" (mkParams pk tx [u]) =
      (wrapOutcome (sendTransactionFlow ext env origin (mkParams pk tx [u])).1,
       (sendTransactionFlow ext env origin (mkParams pk tx [u])).2) := rfl
  constructor
  · intro hkeys
    have hrc := reviewContent_invalid_tx ext origin tx u 0
      (ext.fromSeed (env.entropyAt (derivationPath 0)).index
        (fromHex (dropHexPrefixTwo (env.entropyAt (derivationPath 0)).privateKey))).publicKey
      env.enrichment hkeys
    have hf := flow_review_error ext env origin pk u b tx _ hpk hnode hrc
    rw [hon, hf]
    exact ⟨rfl, rfl, rfl, rfl⟩
  · intro k hk hkn
    have hrc := reviewContent_unknown_kind ext origin tx u 0
      (ext.fromSeed (env.entropyAt (derivationPath 0)).index
        (fromHex (dropHexPrefixTwo (env.entropyAt (derivationPath 0)).privateKey))).publicKey
      env.enrichment k hk hkn
    have hf := flow_review_error ext env origin pk u b tx _ hpk hnode hrc
    rw [hon, hf]
    exact ⟨rfl, rfl, rfl, rfl⟩

theorem malformed_command_rejected_after_probe_witness :
    isHex64 pkA = true ∧ env0.nodeHealth "https://n1.example" = some block0 ∧
    txTwoKeys.objKeys.length ≠ 1 ∧ txUnknownKind.objKeys = ["transfers"] ∧
    "transfers" ∉ titleKeys ∧
    (outcomeFailure (onRpcRequest ext0 env0 "dapp.example" "client.send_transaction"
        (mkParams pkA txTwoKeys ["https://n1.example"])).1 =
      some { code := -1, message := "Invalid parameters",
             data := some "Invalid transaction" } ∧
     hasDialog (onRpcRequest ext0 env0 "dapp.example" "client.send_transaction"
        (mkParams pkA txTwoKeys ["https://n1.example"])).2 = false ∧
     hasSubmit (onRpcRequest ext0 env0 "dapp.example" "client.send_transaction"
        (mkParams pkA txTwoKeys ["https://n1.example"])).2 = false ∧
     hasNetwork (onRpcRequest ext0 env0 "dapp.example" "client.send_transaction"
        (mkParams pkA txTwoKeys ["https://n1.example"])).2 = true) ∧
    (outcomeFailure (onRpcRequest ext0 env0 "dapp.example" "client.send_transaction"
        (mkParams pkA txUnknownKind ["https://n1.example"])).1 =
      some { code := -1, message := "Invalid parameters",
             data := some "Unknown transaction type" } ∧
     hasDialog (onRpcRequest ext0 env0 "dapp.example" "client.send_transaction"
        (mkParams pkA txUnknownKind ["https://n1.example"])).2 = false ∧
     hasSubmit (onRpcRequest ext0 env0 "dapp.example" "client.send_transaction"
        (mkParams pkA txUnknownKind ["https://n1.example"])).2 = false ∧
     hasNetwork (onRpcRequest ext0 env0 "dapp.example" "client.send_transaction"
        (mkParams pkA txUnknownKind ["https://n1.example"])).2 = true) :=
  ⟨by decide, rfl, by decide, rfl, by decide,
   (malformed_command_rejected_after_probe ext0 env0 "dapp.example" pkA "https://n1.example"
     block0 txTwoKeys (by decide) rfl).1 (by decide),
   (malformed_command_rejected_after_probe ext0 env0 "dapp.example" pkA "https://n1.example"
     block0 txUnknownKind (by decide) rfl).2 "transfers" rfl (by decide)⟩

/-- C8 counterexample: with a healthy node configured, both a two-key
command and an unknown-kind command are rejected with the expected
invalid-parameters envelopes, yet their traces already contain network
calls (the node health probe and enrichment fetch), contradicting the
claim that the rejection precedes any network call. -/
theorem shape_rejection_not_before_network_eval :
    outcomeFailure (onRpcRequest ext0 env0 "dapp.example" "client.send_transaction"
        (reqParams txTwoKeys)).1 =
      some { code := -1, message := "Invalid parameters",
             data := some "Invalid transaction" } ∧
    hasNetwork (onRpcRequest ext0 env0 "dapp.example" "client.send_transaction"
        (reqParams txTwoKeys)).2 = true ∧
    outcomeFailure (onRpcRequest ext0 env0 "dapp.example" "client.send_transaction"
        (reqParams txUnknownKind)).1 =
      some { code := -1, message := "Invalid parameters",
             data := some "Unknown transaction type" } ∧
    hasNetwork (onRpcRequest ext0 env0 "dapp.example" "client.send_transaction"
        (reqParams txUnknownKind)).2 = true :=
  ⟨rfl, rfl, rfl, rfl⟩

end VegaSnap

namespace VegaSnap

theorem getAccountType_unknown (s : String)
    (hs2 : s ≠ "ACCOUNT_TYPE_GENERAL") (hs3 : s ≠ "ACCOUNT_TYPE_GLOBAL_REWARD") :
    getAccountType (JsValue.vStr s) = Except.error (invalidParameters "Invalid account type") := by
  unfold getAccountType
  split <;> simp_all

theorem prettyPrintTransferFunds_bad_account (ext : Ext) (c enr : JsValue) (s : String)
    (hoo : truthyOpt (JsValue.getOpt (c.get "kind") "oneOff") = true)
    (hat : c.get "toAccountType" = some (JsValue.vStr s))
    (hs1 : s ≠ "") (hs2 : s ≠ "ACCOUNT_TYPE_GENERAL")
    (hs3 : s ≠ "ACCOUNT_TYPE_GLOBAL_REWARD") :
    prettyPrintTransferFunds ext c enr =
      Except.error (invalidParameters "Invalid account type") := by
  have hgate : toAccountTypeDisplayed (some (JsValue.vStr s)) = true := by
    unfold toAccountTypeDisplayed
    split <;> simp_all
  unfold prettyPrintTransferFunds
  rw [if_neg (by simp [hoo])]
  rw [hat]
  simp only [hgate, if_true, getAccountType_unknown s hs2 hs3, Option.getD_some]
  rfl

theorem reviewContent_transfer_bad_account (ext : Ext) (origin : String) (c : JsValue)
    (entry : String) (idx : Nat) (pkk : String) (enr : JsValue) (s : String)
    (hoo : truthyOpt (JsValue.getOpt (c.get "kind") "oneOff") = true)
    (hat : c.get "toAccountType" = some (JsValue.vStr s))
    (hs1 : s ≠ "") (hs2 : s ≠ "ACCOUNT_TYPE_GENERAL")
    (hs3 : s ≠ "ACCOUNT_TYPE_GLOBAL_REWARD") :
    reviewContent ext origin (JsValue.vObj [("transfer", c)]) entry idx pkk enr =
      Except.error (invalidParameters "Invalid account type") := by
  have ht : transactionTitle (JsValue.vObj [("transfer", c)]) = Except.ok "Transfer" := rfl
  have hp : prettyPrintTx ext (JsValue.vObj [("transfer", c)]) enr =
      prettyPrintTransferFunds ext c enr := rfl
  unfold reviewContent
  rw [ht, hp, prettyPrintTransferFunds_bad_account ext c enr s hoo hat hs1 hs2 hs3]
  rfl

end VegaSnap

namespace VegaSnap

/-- C10: for every one-off transfer whose `toAccountType` is present,
non-empty and neither `ACCOUNT_TYPE_GENERAL` nor
`ACCOUNT_TYPE_GLOBAL_REWARD`, `getAccountType` throws the
invalid-parameters error "Invalid account type", the transfer renderer
propagates it, and the request fails with that envelope before the
confirmation dialog is shown and without any submission. -/
theorem transfer_bad_account_type_rejected (ext : Ext) (env : Env)
    (origin pk u : String) (b : LatestBlock) (c : JsValue) (s : String)
    (hpk : isHex64 pk = true) (hnode : env.nodeHealth u = some b)
    (hoo : truthyOpt (JsValue.getOpt (c.get "kind") "oneOff") = true)
    (hat : c.get "toAccountType" = some (JsValue.vStr s))
    (hs1 : s ≠ "") (hs2 : s ≠ "ACCOUNT_TYPE_GENERAL")
    (hs3 : s ≠ "ACCOUNT_TYPE_GLOBAL_REWARD") :
    getAccountType (JsValue.vStr s) =
      Except.error (invalidParameters "Invalid account type") ∧
    prettyPrintTransferFunds ext c env.enrichment =
      Except.error (invalidParameters "Invalid account type") ∧
    outcomeFailure (onRpcRequest ext env origin "client.send_transaction"
        (mkParams pk (JsValue.vObj [("transfer", c)]) [u])).1 =
      some { code := -1, message := "Invalid parameters",
             data := some "Invalid account type" } ∧
    hasDialog (onRpcRequest ext env origin "client.send_transaction"
        (mkParams pk (JsValue.vObj [("transfer", c)]) [u])).2 = false ∧
    hasSubmit (onRpcRequest ext env origin "client.send_transaction"
        (mkParams pk (JsValue.vObj [("transfer", c)]) [u])).2 = false := by
  have hrc := reviewContent_transfer_bad_account ext origin c u 0
    (ext.fromSeed (env.entropyAt (derivationPath 0)).index
      (fromHex (dropHexPrefixTwo (env.entropyAt (derivationPath 0)).privateKey))).publicKey
    env.enrichment s hoo hat hs1 hs2 hs3
  have hf := flow_review_error ext env origin pk u b (JsValue.vObj [("transfer", c)]) _
    hpk hnode hrc
  have hon : onRpcRequest ext env origin "client.send_transaction"
      (mkParams pk (JsValue.vObj [("transfer", c)]) [u]) =
      (wrapOutcome (sendTransactionFlow ext env origin
        (mkParams pk (JsValue.vObj [("transfer", c)]) [u])).1,
       (sendTransactionFlow ext env origin
        (mkParams pk (JsValue.vObj [("transfer", c)]) [u])).2) := rfl
  rw [hon, hf]
  exact ⟨getAccountType_unknown s hs2 hs3,
    prettyPrintTransferFunds_bad_account ext c env.enrichment s hoo hat hs1 hs2 hs3,
    rfl, rfl, rfl⟩

theorem transfer_bad_account_type_rejected_witness :
    isHex64 pkA = true ∧
    env0.nodeHealth "https://n1.example" = some block0 ∧
    truthyOpt (JsValue.getOpt ((JsValue.vObj
      [("fromAccountType", JsValue.vStr "ACCOUNT_TYPE_GENERAL"),
       ("toAccountType", JsValue.vStr "ACCOUNT_TYPE_INSURANCE"),
       ("asset", JsValue.vStr "fc7f"),
       ("amount", JsValue.vStr "1"),
       ("to", JsValue.vStr "0x123"),
       ("kind", JsValue.vObj [("oneOff", JsValue.vObj [])])]).get "kind") "oneOff") = true ∧
    (getAccountType (JsValue.vStr "ACCOUNT_TYPE_INSURANCE") =
      Except.error (invalidParameters "Invalid account type") ∧
     prettyPrintTransferFunds ext0 (JsValue.vObj
      [("fromAccountType", JsValue.vStr "ACCOUNT_TYPE_GENERAL"),
       ("toAccountType", JsValue.vStr "ACCOUNT_TYPE_INSURANCE"),
       ("asset", JsValue.vStr "fc7f"),
       ("amount", JsValue.vStr "1"),
       ("to", JsValue.vStr "0x123"),
       ("kind", JsValue.vObj [("oneOff", JsValue.vObj [])])]) env0.enrichment =
      Except.error (invalidParameters "Invalid account type") ∧
     outcomeFailure (onRpcRequest ext0 env0 "dapp.example" "client.send_transaction"
        (mkParams pkA (JsValue.vObj [("transfer", JsValue.vObj
      [("fromAccountType", JsValue.vStr "ACCOUNT_TYPE_GENERAL"),
       ("toAccountType", JsValue.vStr "ACCOUNT_TYPE_INSURANCE"),
       ("asset", JsValue.vStr "fc7f"),
       ("amount", JsValue.vStr "1"),
       ("to", JsValue.vStr "0x123"),
       ("kind", JsValue.vObj [("oneOff", JsValue.vObj [])])])]) ["https://n1.example"])).1 =
      some { code := -1, message := "Invalid parameters",
             data := some "Invalid account type" } ∧
     hasDialog (onRpcRequest ext0 env0 "dapp.example" "client.send_transaction"
        (mkParams pkA (JsValue.vObj [("transfer", JsValue.vObj
      [("fromAccountType", JsValue.vStr "ACCOUNT_TYPE_GENERAL"),
       ("toAccountType", JsValue.vStr "ACCOUNT_TYPE_INSURANCE"),
       ("asset", JsValue.vStr "fc7f"),
       ("amount", JsValue.vStr "1"),
       ("to", JsValue.vStr "0x123"),
       ("kind", JsValue.vObj [("oneOff", JsValue.vObj [])])])]) ["https://n1.example"])).2 = false ∧
     hasSubmit (onRpcRequest ext0 env0 "dapp.example" "client.send_transaction"
        (mkParams pkA (JsValue.vObj [("transfer", JsValue.vObj
      [("fromAccountType", JsValue.vStr "ACCOUNT_TYPE_GENERAL"),
       ("toAccountType", JsValue.vStr "ACCOUNT_TYPE_INSURANCE"),
       ("asset", JsValue.vStr "fc7f"),
       ("amount", JsValue.vStr "1"),
       ("to", JsValue.vStr "0x123"),
       ("kind", JsValue.vObj [("oneOff", JsValue.vObj [])])])]) ["https://n1.example"])).2 = false) :=
  ⟨by decide, rfl, rfl,
   transfer_bad_account_type_rejected ext0 env0 "dapp.example" pkA "https://n1.example"
     block0 (JsValue.vObj
      [("fromAccountType", JsValue.vStr "ACCOUNT_TYPE_GENERAL"),
       ("toAccountType", JsValue.vStr "ACCOUNT_TYPE_INSURANCE"),
       ("asset", JsValue.vStr "fc7f"),
       ("amount", JsValue.vStr "1"),
       ("to", JsValue.vStr "0x123"),
       ("kind", JsValue.vObj [("oneOff", JsValue.vObj [])])])
     "ACCOUNT_TYPE_INSURANCE" (by decide) rfl rfl rfl (by decide) (by decide) (by decide)⟩

end VegaSnap

namespace VegaSnap

theorem submitRaw_events (env : Env) (raw64 mode : String) :
    (submitRaw env raw64 mode).2 = [Event.submit raw64 mode] := by
  unfold submitRaw
  split <;> rfl

theorem send_trace (ext : Ext) (env : Env) (node : NodeHandle) (tx : JsValue)
    (mode pk : String)
    (hmatch : (ext.fromSeed (env.entropyAt (derivationPath 0)).index
      (fromHex (dropHexPrefixTwo (env.entropyAt (derivationPath 0)).privateKey))).publicKey = pk) :
    ∃ raw : String, (send ext env node tx mode pk).2 =
      [Event.fetchContext, Event.powSolved,
       Event.encodeInput node.block.height (randomNonce env) tx,
       Event.entropyRequest (derivationPath 0), Event.keyValidated true,
       Event.submit raw mode] := by
  unfold send
  split
  · rename_i m evs2 hderive
    rw [deriveKeyPair_zero] at hderive
    cases hderive
  · rename_i pair evs2 hderive
    rw [deriveKeyPair_zero] at hderive
    injection hderive with h1 h2
    injection h1 with h1
    subst h1
    subst h2
    split
    · dsimp only
      split
      · rename_i f evs4 hsub
        have h4 : evs4 = [Event.submit (toBase64 (encodeTransaction
            (ext.inputDataEnc node.block.height (randomNonce env) tx)
            (ext.fromSeed (env.entropyAt (derivationPath 0)).index
              (fromHex (dropHexPrefixTwo (env.entropyAt (derivationPath 0)).privateKey)))
            (solve ext node.block.spamPowDifficulty node.block.hash (randomTid env))
            node.block.chainId).raw) mode] := by
          have h0 := congrArg (fun z => z.2) hsub
          simp only at h0
          rw [← h0]
          exact submitRaw_events _ _ _
        subst h4
        refine ⟨toBase64 (encodeTransaction
            (ext.inputDataEnc node.block.height (randomNonce env) tx)
            (ext.fromSeed (env.entropyAt (derivationPath 0)).index
              (fromHex (dropHexPrefixTwo (env.entropyAt (derivationPath 0)).privateKey)))
            (solve ext node.block.spamPowDifficulty node.block.hash (randomTid env))
            node.block.chainId).raw, ?_⟩
        simp only [hmatch, beq_self_eq_true]
        rfl
      · rename_i res evs4 hsub
        have h4 : evs4 = [Event.submit (toBase64 (encodeTransaction
            (ext.inputDataEnc node.block.height (randomNonce env) tx)
            (ext.fromSeed (env.entropyAt (derivationPath 0)).index
              (fromHex (dropHexPrefixTwo (env.entropyAt (derivationPath 0)).privateKey)))
            (solve ext node.block.spamPowDifficulty node.block.hash (randomTid env))
            node.block.chainId).raw) mode] := by
          have h0 := congrArg (fun z => z.2) hsub
          simp only at h0
          rw [← h0]
          exact submitRaw_events _ _ _
        subst h4
        refine ⟨toBase64 (encodeTransaction
            (ext.inputDataEnc node.block.height (randomNonce env) tx)
            (ext.fromSeed (env.entropyAt (derivationPath 0)).index
              (fromHex (dropHexPrefixTwo (env.entropyAt (derivationPath 0)).privateKey)))
            (solve ext node.block.spamPowDifficulty node.block.hash (randomTid env))
            node.block.chainId).raw, ?_⟩
        simp only [hmatch, beq_self_eq_true]
        rfl
    · rename_i hne
      exact absurd hmatch hne

end VegaSnap

namespace VegaSnap

theorem flow_success_trace (ext : Ext) (env : Env) (origin pk u : String)
    (b : LatestBlock) (tx : JsValue)
    (hpk : isHex64 pk = true) (hnode : env.nodeHealth u = some b)
    (hrc : isOkContent (reviewContent ext origin tx u 0
        (ext.fromSeed (env.entropyAt (derivationPath 0)).index
          (fromHex (dropHexPrefixTwo (env.entropyAt (derivationPath 0)).privateKey))).publicKey
        env.enrichment) = true)
    (happ : isTrueVal env.approval = true)
    (hmatch : (ext.fromSeed (env.entropyAt (derivationPath 0)).index
      (fromHex (dropHexPrefixTwo (env.entropyAt (derivationPath 0)).privateKey))).publicKey = pk) :
    ∃ raw : String,
      (sendTransactionFlow ext env origin (mkParams pk tx [u])).2 =
        [Event.entropyRequest (derivationPath 0), Event.probe u, Event.fetchEnrichment,
         Event.review tx, Event.showDialog, Event.fetchContext, Event.powSolved,
         Event.encodeInput b.height (randomNonce env) tx,
         Event.entropyRequest (derivationPath 0), Event.keyValidated true,
         Event.submit raw "TYPE_SYNC"] := by
  unfold sendTransactionFlow
  split
  · rename_i heq
    simp [mkParams] at heq
  · rename_i urls heq
    have hu : urls = [u] := by
      simp [mkParams] at heq
      exact heq.symm
    subst hu
    split
    · rename_i hempty
      simp at hempty
    · split
      · rename_i hmode
        simp [mkParams, validSendingMode] at hmode
      · split
        · rename_i heqpk
          simp [mkParams, pubKeyStr] at heqpk
        · rename_i pk2 heqpk
          have hpk2 : pk2 = pk := by
            simp [mkParams, pubKeyStr] at heqpk
            exact heqpk.symm
          subst hpk2
          split
          · rename_i hhex
            rw [hpk] at hhex
            simp at hhex
          · split
            · rename_i m evs0 hderive
              rw [deriveKeyPair_zero] at hderive
              cases hderive
            · rename_i pair evs0 hderive
              rw [deriveKeyPair_zero] at hderive
              injection hderive with h1 h2
              injection h1 with h1
              subst h1
              subst h2
              split
              · rename_i f evs1 hfind
                rw [findHealthyNode_single env u b hnode] at hfind
                cases hfind
              · rename_i node evs1 hfind
                rw [findHealthyNode_single env u b hnode] at hfind
                injection hfind with h1 h2
                injection h1 with h1
                subst h1
                subst h2
                simp only [mkParams, Option.getD_some]
                split
                · rename_i e2 hcond
                  rw [hcond] at hrc
                  simp [isOkContent] at hrc
                · rename_i content hcond
                  obtain ⟨raw, hsr⟩ := send_trace ext env { url := u, block := b } tx
                    (sendingModeStr (some (JsValue.vStr "TYPE_SYNC"))) pk2 hmatch
                  refine ⟨raw, ?_⟩
                  show [Event.entropyRequest (derivationPath 0)] ++ [Event.probe u] ++
                      [Event.fetchEnrichment] ++ [Event.review tx, Event.showDialog] ++
                      (send ext env { url := u, block := b } tx
                        (sendingModeStr (some (JsValue.vStr "TYPE_SYNC"))) pk2).2 = _
                  rw [hsr]
                  rfl

end VegaSnap

namespace VegaSnap

/-- C9 (amended): on a successful request the per-request order is:
display key-pair resolution, node health probe, enrichment fetch, review
display, approval dialog, then chain-context fetch, proof-of-work and
input-data encoding, signing key re-derivation and caller-key validation,
and submission last — so approval precedes context fetch and PoW, and the
caller-key validation happens after PoW, not before the context fetch. -/
theorem send_transaction_phase_order (ext : Ext) (env : Env) (origin pk u : String)
    (b : LatestBlock) (tx : JsValue)
    (hpk : isHex64 pk = true) (hnode : env.nodeHealth u = some b)
    (hrc : isOkContent (reviewContent ext origin tx u 0
        (ext.fromSeed (env.entropyAt (derivationPath 0)).index
          (fromHex (dropHexPrefixTwo (env.entropyAt (derivationPath 0)).privateKey))).publicKey
        env.enrichment) = true)
    (happ : isTrueVal env.approval = true)
    (hmatch : (ext.fromSeed (env.entropyAt (derivationPath 0)).index
      (fromHex (dropHexPrefixTwo (env.entropyAt (derivationPath 0)).privateKey))).publicKey = pk) :
    ∃ raw : String,
      (onRpcRequest ext env origin "client.send_transaction" (mkParams pk tx [u])).2 =
        [Event.entropyRequest (derivationPath 0), Event.probe u, Event.fetchEnrichment,
         Event.review tx, Event.showDialog, Event.fetchContext, Event.powSolved,
         Event.encodeInput b.height (randomNonce env) tx,
         Event.entropyRequest (derivationPath 0), Event.keyValidated true,
         Event.submit raw "TYPE_SYNC"] :=
  flow_success_trace ext env origin pk u b tx hpk hnode hrc happ hmatch

theorem send_transaction_phase_order_witness :
    isHex64 pkA = true ∧
    env0.nodeHealth "https://n1.example" = some block0 ∧
    isOkContent (reviewContent ext0 "dapp.example" txTransferOk "https://n1.example" 0
      (ext0.fromSeed (env0.entropyAt (derivationPath 0)).index
        (fromHex (dropHexPrefixTwo (env0.entropyAt (derivationPath 0)).privateKey))).publicKey
      env0.enrichment) = true ∧
    isTrueVal env0.approval = true ∧
    (ext0.fromSeed (env0.entropyAt (derivationPath 0)).index
      (fromHex (dropHexPrefixTwo (env0.entropyAt (derivationPath 0)).privateKey))).publicKey =
      pkA ∧
    ∃ raw : String,
      (onRpcRequest ext0 env0 "dapp.example" "client.send_transaction"
          (mkParams pkA txTransferOk ["https://n1.example"])).2 =
        [Event.entropyRequest (derivationPath 0), Event.probe "https://n1.example",
         Event.fetchEnrichment, Event.review txTransferOk, Event.showDialog,
         Event.fetchContext, Event.powSolved,
         Event.encodeInput block0.height (randomNonce env0) txTransferOk,
         Event.entropyRequest (derivationPath 0), Event.keyValidated true,
         Event.submit raw "TYPE_SYNC"] :=
  ⟨by decide, rfl, rfl, rfl, rfl,
   send_transaction_phase_order ext0 env0 "dapp.example" pkA "https://n1.example" block0
     txTransferOk (by decide) rfl rfl rfl rfl⟩

/-- C9 counterexample: a concrete successful run in which the approval
dialog is shown before any proof-of-work completion and before the chain
context fetch, and the chain context is fetched before the caller key is
validated — contradicting the claimed ResolvingKey-before-FetchingContext
and PoW-before-approval ordering. -/
theorem claimed_phase_order_falsified_eval :
    isSent (onRpcRequest ext0 env0 "dapp.example" "client.send_transaction"
        (reqParams txTransferOk)).1 = true ∧
    hasDialog (beforeFirst isPowEv (onRpcRequest ext0 env0 "dapp.example"
        "client.send_transaction" (reqParams txTransferOk)).2) = true ∧
    hasDialog (beforeFirst isContextEv (onRpcRequest ext0 env0 "dapp.example"
        "client.send_transaction" (reqParams txTransferOk)).2) = true ∧
    (beforeFirst isKeyValidatedEv (onRpcRequest ext0 env0 "dapp.example"
        "client.send_transaction" (reqParams txTransferOk)).2).any isContextEv = true :=
  ⟨rfl, rfl, rfl, rfl⟩

end VegaSnap
